import Mathlib

/-!
Shallow embedding of `src/data_generation/main.py` (snowflake-hvac).

Modelling conventions, shared by every definition below:

* Money and other Python floats are modelled as exact rationals (`ℚ`);
  Python's `round(x, k)` becomes `round2`/`round1` (round to a multiple of
  `1/10^k`).  Dates and datetimes are opaque integers (`ℤ`): every date the
  source obtains from faker is an input of the randomness record, and
  `timedelta(days = d)` becomes integer addition.
* Randomness is explicit: each generator receives a stream of per-row
  randomness records.  A field of such a record corresponds to one
  `random.*` / `fake.*` draw of the source; range facts such as
  "`random.uniform(0.3, 0.8)` lies in `[0.3, 0.8]`" become hypotheses of
  the theorems that need them.
* `random.choice(l)` on a list that is a nonempty compile-time constant of
  the source is modelled by the total `pick l d n` (the default `d` is
  never reached); `random.choice` on a data-dependent list (a parent-table
  column, which may be empty, in which case CPython raises `IndexError`)
  is modelled by the fallible `rchoice l n : Option _`, and the generators
  that perform such draws return `Option (List _)`, `none` standing for a
  raised exception.
* `pandas.DataFrame` values are lists of structures; a generated id column
  assigned after construction (`df['total_cost'] = ...`) is a `List.map`
  over the finished rows, exactly as the frame-level assignment rewrites
  the column.
-/

/-- Python `round(x, 2)` on exact rationals: round to a multiple of 1/100. -/
def round2 (q : ℚ) : ℚ := (round (q * 100) : ℤ) / 100

/-- Python `round(x, 1)` on exact rationals: round to a multiple of 1/10. -/
def round1 (q : ℚ) : ℚ := (round (q * 10) : ℤ) / 10

/-- Model of `random.choice(l)` for a compile-time nonempty constant list
`l`: the draw is an arbitrary index `n`, reduced modulo the length.  The
default `d` is unreachable for the nonempty lists this is applied to. -/
def pick (l : List α) (d : α) (n : Nat) : α := l.getD (n % l.length) d

/-- Model of `random.choice(l)` for a data-dependent list `l` (a parent
table's key column): `none` models the `IndexError` CPython raises when
`l` is empty. -/
def rchoice (l : List α) (n : Nat) : Option α := l[n % l.length]?

/-- Effectful list map over `Option`, modelling a Python loop whose body
may raise: the loop produces all rows, or the whole generator fails. -/
def optMap (f : α → Option β) : List α → Option (List β)
  | [] => some []
  | a :: as =>
    match f a, optMap f as with
    | some b, some bs => some (b :: bs)
    | _, _ => none

/-- Row of the customers table (`generate_customers`). -/
structure Customer where
  customer_id : Nat
  customer_name : String
  address : String
  phone : String
  customer_type : String
  created_at : Int
  deriving Repr, DecidableEq, Inhabited

/-- Randomness consumed for one customer row. -/
structure CustomerRand where
  isCompany : Bool
  companyName : String
  personName : String
  addr : String
  phoneVal : String
  ctypeIdx : Nat
  created : Int
  deriving Inhabited

/-- Embedding of `generate_customers(n_customers)`. -/
def generate_customers (ρ : Nat → CustomerRand) (n_customers : Nat) : List Customer :=
  (List.range n_customers).map fun i =>
    let r := ρ i
    { customer_id := i + 1
      customer_name := if r.isCompany then r.companyName else r.personName
      address := r.addr
      phone := r.phoneVal
      customer_type := pick ["residential", "commercial"] "" r.ctypeIdx
      created_at := r.created }

/-- Embedding of `generate_customers_incremental(n_customers, start_id)`. -/
def generate_customers_incremental (ρ : Nat → CustomerRand) (n_customers start_id : Nat) :
    List Customer :=
  (List.range n_customers).map fun i =>
    let r := ρ i
    { customer_id := start_id + i
      customer_name := if r.isCompany then r.companyName else r.personName
      address := r.addr
      phone := r.phoneVal
      customer_type := pick ["residential", "commercial"] "" r.ctypeIdx
      created_at := r.created }

/-- The skill list of `generate_technicians`. -/
def technician_skill_names : List String :=
  ["HVAC_Installation", "Electrical", "Refrigeration", "Ductwork",
   "Diagnostics", "Customer_Service", "Safety_Protocols"]

/-- The `{'junior': 3, 'senior': 6, 'lead': 8, 'specialist': 9}` base-skill
table.  The source indexes the dict with a level drawn from exactly these
four keys, so the final branch is unreachable. -/
def base_skill (level : String) : Int :=
  if level = "junior" then 3
  else if level = "senior" then 6
  else if level = "lead" then 8
  else if level = "specialist" then 9
  else 0

/-- Row of the technicians table; the per-skill columns built by string
interpolation in the source are the association list `skills`. -/
structure Technician where
  technician_id : Nat
  technician_name : String
  phone : String
  technician_level : String
  hourly_rate : Nat
  hire_date : Int
  years_experience : Nat
  certification_level : String
  skills : List (String × Int)
  deriving Repr, DecidableEq, Inhabited

/-- Randomness consumed for one technician row; `variance j` is the
`random.randint(-2, 2)` draw for the `j`-th skill. -/
structure TechnicianRand where
  levelIdx : Nat
  nameVal : String
  phoneVal : String
  rate : Nat
  hire : Int
  years : Nat
  certIdx : Nat
  variance : Nat → Int
  deriving Inhabited

/-- Skill map of one technician: for every skill name, the tier base value
plus the bounded variance, clamped into `[1, 10]`. -/
def technician_skills_of (level : String) (variance : Nat → Int) : List (String × Int) :=
  technician_skill_names.enum.map fun js =>
    (js.2.toLower ++ "_skill", max 1 (min 10 (base_skill level + variance js.1)))

/-- One technician row, shared by the full and incremental generators. -/
def technician_row (r : TechnicianRand) (tid : Nat) : Technician :=
  let level := pick ["junior", "senior", "lead", "specialist"] "" r.levelIdx
  { technician_id := tid
    technician_name := r.nameVal
    phone := r.phoneVal
    technician_level := level
    hourly_rate := r.rate
    hire_date := r.hire
    years_experience := r.years
    certification_level := pick ["Basic", "Intermediate", "Advanced", "Master"] "" r.certIdx
    skills := technician_skills_of level r.variance }

/-- Embedding of `generate_technicians(n_technicians)`. -/
def generate_technicians (ρ : Nat → TechnicianRand) (n_technicians : Nat) : List Technician :=
  (List.range n_technicians).map fun i => technician_row (ρ i) (i + 1)

/-- Embedding of `generate_technicians_incremental(n_technicians, start_id)`. -/
def generate_technicians_incremental (ρ : Nat → TechnicianRand) (n_technicians start_id : Nat) :
    List Technician :=
  (List.range n_technicians).map fun i => technician_row (ρ i) (start_id + i)

/-- Row of the equipment_types table. -/
structure EquipmentType where
  equipment_id : Nat
  brand : String
  model : String
  equipment_type : String
  btu_rating : Nat
  energy_rating : ℚ
  deriving Repr, DecidableEq, Inhabited

/-- Randomness consumed for one equipment-type row. -/
structure EquipmentRand where
  brandIdx : Nat
  prefIdx : Nat
  modelNum : Nat
  typeIdx : Nat
  btuIdx : Nat
  energy : ℚ
  deriving Inhabited

/-- One equipment row, shared by the full and incremental generators. -/
def equipment_row (r : EquipmentRand) (eid : Nat) : EquipmentType :=
  { equipment_id := eid
    brand := pick ["Carrier", "Trane", "Lennox", "Rheem", "Goodman", "York", "Daikin"] "" r.brandIdx
    model := pick ["X", "Pro", "Elite", "Prime"] "" r.prefIdx ++ toString r.modelNum
    equipment_type :=
      pick ["Central AC", "Heat Pump", "Furnace", "Ductless Mini-Split", "Package Unit"] "" r.typeIdx
    btu_rating := pick [18000, 24000, 36000, 48000, 60000] 0 r.btuIdx
    energy_rating := round1 r.energy }

/-- Embedding of `generate_equipment_types(n_equipment)`. -/
def generate_equipment_types (ρ : Nat → EquipmentRand) (n_equipment : Nat) : List EquipmentType :=
  (List.range n_equipment).map fun i => equipment_row (ρ i) (i + 1)

/-- Embedding of `generate_equipment_types_incremental(n_equipment, start_id)`. -/
def generate_equipment_types_incremental (ρ : Nat → EquipmentRand) (n_equipment start_id : Nat) :
    List EquipmentType :=
  (List.range n_equipment).map fun i => equipment_row (ρ i) (start_id + i)

/-- Row of the parts table. -/
structure PartRow where
  part_id : Nat
  part_name : String
  part_category : String
  unit_cost : ℚ
  supplier : String
  deriving Repr, DecidableEq, Inhabited

/-- Randomness consumed for one part row. -/
structure PartRand where
  ptypeIdx : Nat
  word : String
  catIdx : Nat
  cost : ℚ
  supplierVal : String
  deriving Inhabited

/-- Vocabulary of part types shared by name and category draws. -/
def part_types : List String :=
  ["Filter", "Compressor", "Coil", "Fan Motor", "Thermostat",
   "Capacitor", "Contactor", "Refrigerant", "Ductwork", "Valve"]

/-- One part row, shared by the full and incremental generators. -/
def part_row (r : PartRand) (pid : Nat) : PartRow :=
  { part_id := pid
    part_name := pick part_types "" r.ptypeIdx ++ " - " ++ r.word
    part_category := pick part_types "" r.catIdx
    unit_cost := round2 r.cost
    supplier := r.supplierVal }

/-- Embedding of `generate_parts(n_parts)`. -/
def generate_parts (ρ : Nat → PartRand) (n_parts : Nat) : List PartRow :=
  (List.range n_parts).map fun i => part_row (ρ i) (i + 1)

/-- Embedding of `generate_parts_incremental(n_parts, start_id)`. -/
def generate_parts_incremental (ρ : Nat → PartRand) (n_parts start_id : Nat) : List PartRow :=
  (List.range n_parts).map fun i => part_row (ρ i) (start_id + i)

/-- Row of the service_calls table. -/
structure ServiceCall where
  service_call_id : Nat
  customer_id : Nat
  technician_id : Nat
  equipment_id : Nat
  service_date : Int
  service_type : String
  duration_hours : ℚ
  labor_cost : ℚ
  parts_cost : ℚ
  total_cost : ℚ
  deriving Repr, DecidableEq, Inhabited

/-- Randomness consumed for one service-call row: the three parent-key
draws, the date, the service-type draw, `random.uniform(1, 8)` for the
duration, `random.randint(50, 100)` for the labor rate and
`random.uniform(0, 300)` for the parts cost. -/
structure ServiceCallRand where
  custIdx : Nat
  techIdx : Nat
  equipIdx : Nat
  dateVal : Int
  svcIdx : Nat
  durU : ℚ
  rate : Nat
  partsU : ℚ
  deriving Inhabited

/-- Service-type vocabulary shared by the full and incremental generators. -/
def service_call_types : List String :=
  ["Maintenance", "Repair", "Installation", "Emergency", "Inspection"]

/-- One service-call row before the frame-level `total_cost` assignment;
`none` models a raised `IndexError` from `random.choice` on an empty
parent-key column. -/
def service_call_row (r : ServiceCallRand) (sid : Nat) (customers : List Customer)
    (technicians : List Technician) (equipment : List EquipmentType) : Option ServiceCall := do
  let cid ← rchoice (customers.map Customer.customer_id) r.custIdx
  let tid ← rchoice (technicians.map Technician.technician_id) r.techIdx
  let eid ← rchoice (equipment.map EquipmentType.equipment_id) r.equipIdx
  let duration := round1 r.durU
  pure
    { service_call_id := sid
      customer_id := cid
      technician_id := tid
      equipment_id := eid
      service_date := r.dateVal
      service_type := pick service_call_types "" r.svcIdx
      duration_hours := duration
      labor_cost := round2 (duration * (r.rate : ℚ))
      parts_cost := round2 r.partsU
      total_cost := 0 }

/-- The `df['total_cost'] = df['labor_cost'] + df['parts_cost']` column
assignment performed after the construction loop. -/
def set_total_cost (rows : List ServiceCall) : List ServiceCall :=
  rows.map fun r => { r with total_cost := r.labor_cost + r.parts_cost }

/-- Embedding of `generate_service_calls(customers_df, technicians_df,
equipment_df, n_calls)`. -/
def generate_service_calls (ρ : Nat → ServiceCallRand) (customers : List Customer)
    (technicians : List Technician) (equipment : List EquipmentType) (n_calls : Nat) :
    Option (List ServiceCall) :=
  (optMap (fun i => service_call_row (ρ i) (i + 1) customers technicians equipment)
    (List.range n_calls)).map set_total_cost

/-- Embedding of `generate_service_calls_incremental(n_calls, start_id,
customers_df, technicians_df, equipment_df)`. -/
def generate_service_calls_incremental (ρ : Nat → ServiceCallRand) (n_calls start_id : Nat)
    (customers : List Customer) (technicians : List Technician)
    (equipment : List EquipmentType) : Option (List ServiceCall) :=
  (optMap (fun i => service_call_row (ρ i) (start_id + i) customers technicians equipment)
    (List.range n_calls)).map set_total_cost

/-- Row of the parts_usage table. -/
structure PartsUsage where
  usage_id : Nat
  service_call_id : Nat
  part_id : Nat
  quantity_used : Nat
  usage_date : Int
  deriving Repr, DecidableEq, Inhabited

/-- Randomness consumed for one service call in `generate_parts_usage`:
`nParts` is the `random.randint(0, avg_parts_per_call * 2)` draw, and
`partIdx j` / `qty j` are the part draw and `random.randint(1, 5)` for the
`j`-th usage row of that call. -/
structure PartsUsageRand where
  nParts : Nat
  partIdx : Nat → Nat
  qty : Nat → Nat
  deriving Inhabited

/-- Inner loop of `generate_parts_usage` for one service call, before the
sequential `usage_id` numbering. -/
def parts_usage_rows_for_call (r : PartsUsageRand) (call : ServiceCall)
    (parts : List PartRow) : Option (List PartsUsage) :=
  optMap
    (fun j => do
      let pid ← rchoice (parts.map PartRow.part_id) (r.partIdx j)
      pure
        { usage_id := 0
          service_call_id := call.service_call_id
          part_id := pid
          quantity_used := r.qty j
          usage_date := call.service_date })
    (List.range r.nParts)

/-- The `len(parts_usage) + 1` numbering of the source, applied to the
concatenated rows in order of creation. -/
def number_usages (rows : List PartsUsage) : List PartsUsage :=
  rows.enum.map fun ir => { ir.2 with usage_id := ir.1 + 1 }

/-- Embedding of `generate_parts_usage(service_calls_df, parts_df,
avg_parts_per_call=2)`.  The `avg_parts_per_call` argument only bounds the
`nParts` randint draw, so it lives in the randomness contract rather than
in the definition. -/
def generate_parts_usage (ρ : Nat → PartsUsageRand) (service_calls : List ServiceCall)
    (parts : List PartRow) : Option (List PartsUsage) :=
  (optMap (fun ic => parts_usage_rows_for_call (ρ ic.1) ic.2 parts)
    service_calls.enum).map fun groups => number_usages groups.flatten

/-- Row of the incident_response table. -/
structure IncidentResponse where
  incident_id : Nat
  service_call_id : Nat
  incident_type : String
  severity_level : String
  reported_time : Int
  response_time_minutes : Nat
  resolution_time_minutes : Nat
  responding_technician_id : Nat
  backup_technician_id : Option Nat
  resolution_status : String
  customer_satisfaction : Nat
  follow_up_required : Bool
  deriving Repr, DecidableEq, Inhabited

/-- Randomness consumed for one incident row. -/
structure IncidentRand where
  typeIdx : Nat
  sevIdx : Nat
  reported : Int
  respTime : Nat
  resolTime : Nat
  backupCoin : Bool
  backupIdx : Nat
  statusIdx : Nat
  satisf : Nat
  followUp : Bool
  deriving Inhabited

/-- Incident-type vocabulary of `generate_incident_response`. -/
def incident_types : List String :=
  ["No Heat/AC", "Gas Leak", "Electrical Issue", "Water Damage",
   "System Failure", "Carbon Monoxide Alert"]

/-- Loop body of `generate_incident_response` for loop index `i` and the
Emergency call `call` selected for that index: the backup technician is
drawn from the technicians frame behind a coin, everything keyed to the
call (`service_call_id`, `responding_technician_id`) is copied from it. -/
def incident_row (r : IncidentRand) (i : Nat) (call : ServiceCall)
    (technicians : List Technician) : Option IncidentResponse := do
  let backup ←
    if r.backupCoin then
      (rchoice (technicians.map Technician.technician_id) r.backupIdx).map some
    else pure none
  pure
    { incident_id := i + 1
      service_call_id := call.service_call_id
      incident_type := pick incident_types "" r.typeIdx
      severity_level := pick ["Low", "Medium", "High", "Critical"] "" r.sevIdx
      reported_time := r.reported
      response_time_minutes := r.respTime
      resolution_time_minutes := r.resolTime
      responding_technician_id := call.technician_id
      backup_technician_id := backup
      resolution_status :=
        pick ["Resolved", "Pending", "Escalated", "Requires Follow-up"] "" r.statusIdx
      customer_satisfaction := r.satisf
      follow_up_required := r.followUp }

/-- Embedding of `generate_incident_response(service_calls_df,
technicians_df, n_incidents)`: the pool is filtered to Emergency calls,
the loop runs `min(n_incidents, len(emergency_calls))` times and row `i`
reads `emergency_calls.iloc[i % len(emergency_calls)]`. -/
def generate_incident_response (ρ : Nat → IncidentRand) (service_calls : List ServiceCall)
    (technicians : List Technician) (n_incidents : Nat) : Option (List IncidentResponse) :=
  let emergency_calls := service_calls.filter fun c => c.service_type == "Emergency"
  optMap
    (fun i =>
      incident_row (ρ i) i (emergency_calls.getD (i % emergency_calls.length) default)
        technicians)
    (List.range (min n_incidents emergency_calls.length))

/-- Row of the invoices table. -/
structure Invoice where
  invoice_id : Nat
  invoice_number : String
  service_call_id : Nat
  customer_id : Nat
  issue_date : Int
  due_date : Int
  payment_terms : String
  subtotal : ℚ
  tax_rate : ℚ
  tax_amount : ℚ
  total_amount : ℚ
  status : String
  notes : Option String
  deriving Repr, DecidableEq, Inhabited

/-- Randomness consumed for one invoice row. -/
structure InvoiceRand where
  issueOff : Nat
  dueIdx : Nat
  termIdx : Nat
  markup : ℚ
  rateIdx : Nat
  statusIdx : Nat
  noteCoin : Bool
  note : String
  deriving Inhabited

/-- Model of `df.sample(n=k)`: a selection of `k` rows of the frame,
indexed by the draw stream `σ`.  The verified properties are per selected
row, so the without-replacement aspect of pandas sampling needs no
modelling; `k` is always `min(requested, len(df))` at the call sites. -/
def sample_rows [Inhabited α] (σ : Nat → Nat) (k : Nat) (l : List α) : List α :=
  (List.range k).map fun i => l.getD (σ i % l.length) default

/-- Embedding of `generate_invoices(service_calls_df, customers_df,
n_invoices=None)`.  The `customers_df` argument is accepted and unused,
as in the source; the default row count `int(len(service_calls) * 0.85)`
is the floor division `len * 85 / 100`; the `.year` component of the
opaque issue date is not modelled inside `invoice_number`. -/
def generate_invoices (ρ : Nat → InvoiceRand) (σ : Nat → Nat)
    (service_calls : List ServiceCall) (customers : List Customer)
    (n_invoices : Option Nat := none) : List Invoice :=
  let _ := customers
  let n := n_invoices.getD (service_calls.length * 85 / 100)
  let selected := sample_rows σ (min n service_calls.length) service_calls
  selected.enum.map fun ic =>
    let i := ic.1
    let call := ic.2
    let r := ρ i
    let issue : Int := call.service_date + (r.issueOff : Int)
    let subtotal := round2 (call.total_cost * r.markup)
    let tax_rate := pick [(65 : ℚ)/1000, 75/1000, 80/1000, 85/1000] 0 r.rateIdx
    let tax_amount := round2 (subtotal * tax_rate)
    { invoice_id := i + 1
      invoice_number := "INV-" ++ toString issue ++ "-" ++ toString (i + 1)
      service_call_id := call.service_call_id
      customer_id := call.customer_id
      issue_date := issue
      due_date := issue + pick [(15 : Int), 30, 45] 0 r.dueIdx
      payment_terms := pick ["Net 15", "Net 30", "Due on Receipt", "Net 45"] "" r.termIdx
      subtotal := subtotal
      tax_rate := tax_rate
      tax_amount := tax_amount
      total_amount := subtotal + tax_amount
      status := pick ["Paid", "Pending", "Overdue", "Cancelled"] "" r.statusIdx
      notes := if r.noteCoin then some r.note else none }

/-- Row of the payments table. -/
structure Payment where
  payment_id : Nat
  invoice_id : Nat
  payment_date : Int
  amount : ℚ
  payment_method : String
  transaction_id : String
  status : String
  processing_fee : ℚ
  notes : Option String
  deriving Repr, DecidableEq, Inhabited

/-- Randomness consumed for one payable invoice in `generate_payments`:
`payCoin` is the `random.choice([True, False])` gate of the Pending
branch, `payFrac` the `random.uniform(0.3, 0.8)` draw and `feeFrac` the
`random.uniform(0.02, 0.035)` draw. -/
structure PaymentRand where
  dateVal : Int
  methodIdx : Nat
  txn : String
  feeCoin : Bool
  feeFrac : ℚ
  payCoin : Bool
  payFrac : ℚ
  statusIdx : Nat
  deriving Inhabited

/-- Payment-method vocabulary of `generate_payments`. -/
def payment_methods : List String :=
  ["Credit Card", "Check", "Cash", "ACH Transfer", "Online Payment"]

/-- The full payment produced for a Paid invoice. -/
def full_payment (r : PaymentRand) (pid : Nat) (inv : Invoice) : Payment :=
  { payment_id := pid
    invoice_id := inv.invoice_id
    payment_date := r.dateVal
    amount := inv.total_amount
    payment_method := pick payment_methods "" r.methodIdx
    transaction_id := r.txn
    status := "Completed"
    processing_fee := if r.feeCoin then round2 (inv.total_amount * r.feeFrac) else 0
    notes := none }

/-- The fractional payment produced for a Pending invoice whose coin came
up true. -/
def part_payment (r : PaymentRand) (pid : Nat) (inv : Invoice) : Payment :=
  let amt := round2 (inv.total_amount * r.payFrac)
  { payment_id := pid
    invoice_id := inv.invoice_id
    payment_date := r.dateVal
    amount := amt
    payment_method := pick payment_methods "" r.methodIdx
    transaction_id := r.txn
    status := pick ["Completed", "Pending"] "" r.statusIdx
    processing_fee := if r.feeCoin then round2 (amt * r.feeFrac) else 0
    notes := some "Partial payment" }

/-- Loop body of `generate_payments` over the payable invoices, threading
the loop index `i` (for the randomness stream) and the `payment_id`
counter, which only advances when a payment is appended. -/
def payments_loop (ρ : Nat → PaymentRand) : Nat → Nat → List Invoice → List Payment
  | _, _, [] => []
  | i, pid, inv :: rest =>
    if inv.status = "Paid" then
      full_payment (ρ i) pid inv :: payments_loop ρ (i + 1) (pid + 1) rest
    else if inv.status = "Pending" ∧ (ρ i).payCoin then
      part_payment (ρ i) pid inv :: payments_loop ρ (i + 1) (pid + 1) rest
    else
      payments_loop ρ (i + 1) pid rest

/-- Embedding of `generate_payments(invoices_df)`: filter to the payable
statuses, then run the loop with `payment_id = 1`. -/
def generate_payments (ρ : Nat → PaymentRand) (invoices : List Invoice) : List Payment :=
  payments_loop ρ 0 1 (invoices.filter fun inv => inv.status == "Paid" || inv.status == "Pending")

/-- Row of the appointments table. -/
structure Appointment where
  appointment_id : Nat
  customer_id : Nat
  technician_id : Nat
  service_call_id : Option Nat
  appointment_date : Int
  scheduled_time : Int
  appointment_type : String
  estimated_duration_hours : ℚ
  status : String
  priority : String
  special_instructions : Option String
  created_date : Int
  confirmed_date : Option Int
  deriving Repr, DecidableEq, Inhabited

/-- Randomness consumed for one historical appointment (one per existing
service call). -/
structure ApptCallRand where
  schedTime : Int
  prioIdx : Nat
  instrCoin : Bool
  instr : String
  createdOff : Nat
  confCoin : Bool
  confOff : Nat
  deriving Inhabited

/-- Randomness consumed for one future appointment. -/
structure ApptFutureRand where
  futureDate : Int
  schedTime : Int
  custIdx : Nat
  techIdx : Nat
  typeIdx : Nat
  durU : ℚ
  statusIdx : Nat
  prioIdx : Nat
  instrCoin : Bool
  instr : String
  created : Int
  confCoin : Bool
  conf : Int
  deriving Inhabited

/-- Appointment-type vocabulary used by the future-appointment loop. -/
def appointment_types : List String :=
  ["Maintenance", "Repair", "Installation", "Inspection", "Emergency", "Consultation"]

/-- The sequential `appointment_id` numbering across both loops. -/
def number_appointments (rows : List Appointment) : List Appointment :=
  rows.enum.map fun ir => { ir.2 with appointment_id := ir.1 + 1 }

/-- Historical appointment for one existing service call: the first loop
of `generate_appointments` creates one Completed appointment per service
call before `remaining = n_appointments - len(appointments)` future ones
are added (CPython's `range` of a negative number is empty, which the
truncated `Nat` subtraction of `generate_appointments` reproduces). -/
def appointment_from_call (r : ApptCallRand) (call : ServiceCall) : Appointment :=
  { appointment_id := 0
    customer_id := call.customer_id
    technician_id := call.technician_id
    service_call_id := some call.service_call_id
    appointment_date := call.service_date
    scheduled_time := r.schedTime
    appointment_type := call.service_type
    estimated_duration_hours := call.duration_hours
    status := "Completed"
    priority := pick ["Low", "Medium", "High", "Emergency"] "" r.prioIdx
    special_instructions := if r.instrCoin then some r.instr else none
    created_date := r.schedTime - (r.createdOff : Int)
    confirmed_date := if r.confCoin then some (r.schedTime + (r.confOff : Int)) else none }

/-- Loop body of the future-appointment loop of `generate_appointments`. -/
def future_appointment_row (r : ApptFutureRand) (customers : List Customer)
    (technicians : List Technician) : Option Appointment := do
  let cid ← rchoice (customers.map Customer.customer_id) r.custIdx
  let tid ← rchoice (technicians.map Technician.technician_id) r.techIdx
  pure
    { appointment_id := 0
      customer_id := cid
      technician_id := tid
      service_call_id := none
      appointment_date := r.futureDate
      scheduled_time := r.schedTime
      appointment_type := pick appointment_types "" r.typeIdx
      estimated_duration_hours := round1 r.durU
      status := pick ["Scheduled", "Confirmed"] "" r.statusIdx
      priority := pick ["Low", "Medium", "High"] "" r.prioIdx
      special_instructions := if r.instrCoin then some r.instr else none
      created_date := r.created
      confirmed_date := if r.confCoin then some r.conf else none }

/-- Embedding of `generate_appointments(customers_df, technicians_df,
service_calls_df, n_appointments)`. -/
def generate_appointments (ρ1 : Nat → ApptCallRand) (ρ2 : Nat → ApptFutureRand)
    (customers : List Customer) (technicians : List Technician)
    (service_calls : List ServiceCall) (n_appointments : Nat) : Option (List Appointment) :=
  let fromCalls : List Appointment :=
    service_calls.enum.map fun ic => appointment_from_call (ρ1 ic.1) ic.2
  let remaining := n_appointments - fromCalls.length
  (optMap (fun i => future_appointment_row (ρ2 i) customers technicians)
    (List.range remaining)).map fun future => number_appointments (fromCalls ++ future)

/-- The `existing_customers['customer_id'].max() + 1` read of
`generate_incremental_data` starts from the column maximum, modelled as a
fold over the id column (`0` for an empty frame; the source's incremental
mode only runs when the persisted frame exists and is nonempty). -/
def max_customer_id (customers : List Customer) : Nat :=
  (customers.map Customer.customer_id).foldr max 0

/-- Concrete customer used to instantiate witnesses. -/
def sampleCustomer : Customer :=
  { customer_id := 1
    customer_name := "Acme Corp"
    address := "1 Main St"
    phone := "555-0100"
    customer_type := "residential"
    created_at := 0 }

/-- Concrete technician used to instantiate witnesses. -/
def sampleTechnician : Technician :=
  { technician_id := 3
    technician_name := "Sam Lee"
    phone := "555-0101"
    technician_level := "junior"
    hourly_rate := 30
    hire_date := 0
    years_experience := 2
    certification_level := "Basic"
    skills := [] }

/-- Concrete equipment type used to instantiate witnesses. -/
def sampleEquipment : EquipmentType :=
  { equipment_id := 5
    brand := "Trane"
    model := "X100"
    equipment_type := "Furnace"
    btu_rating := 18000
    energy_rating := 13 }

/-- Concrete part used to instantiate witnesses. -/
def samplePart : PartRow :=
  { part_id := 2
    part_name := "Filter - Alpha"
    part_category := "Filter"
    unit_cost := 5
    supplier := "Acme Corp" }

/-- Concrete Emergency service call used to instantiate witnesses. -/
def sampleEmergencyCall : ServiceCall :=
  { service_call_id := 7
    customer_id := 1
    technician_id := 3
    equipment_id := 5
    service_date := 0
    service_type := "Emergency"
    duration_hours := 1
    labor_cost := 50
    parts_cost := 0
    total_cost := 50 }

/-- Concrete Paid invoice used to instantiate witnesses. -/
def samplePaidInvoice : Invoice :=
  { invoice_id := 1
    invoice_number := "INV-0-1"
    service_call_id := 7
    customer_id := 1
    issue_date := 0
    due_date := 30
    payment_terms := "Net 30"
    subtotal := 90
    tax_rate := 65/1000
    tax_amount := 10
    total_amount := 100
    status := "Paid"
    notes := none }

/-- Concrete Pending invoice used to instantiate witnesses. -/
def samplePendingInvoice : Invoice :=
  { samplePaidInvoice with invoice_id := 2, status := "Pending" }

/-- Payment randomness with a heads coin and a one-half fraction, used to
instantiate witnesses. -/
def samplePaymentRand : PaymentRand :=
  { dateVal := 0
    methodIdx := 0
    txn := "TXN-1"
    feeCoin := false
    feeFrac := 0
    payCoin := true
    payFrac := 1/2
    statusIdx := 0 }

/-- Parts-usage randomness whose `randint(0, 4)` draw came up `1`: the
inner loop then executes once and must sample the parts frame. -/
def puRandOne : PartsUsageRand :=
  { nParts := 1
    partIdx := fun _ => 0
    qty := fun _ => 1 }

/-- The single invoice the invoice generator produces from two sample
service calls at the all-defaults randomness (the default row count is
`int(2 * 0.85) = 1`), used to instantiate witnesses. -/
def sampleGeneratedInvoice : Invoice :=
  (generate_invoices (fun _ => default) (fun _ => 0)
    [sampleEmergencyCall, sampleEmergencyCall] [] none).getD 0 default

/-! ### Facts about the modelling combinators -/

/-- A pick from a nonempty list is a member of the list. -/
theorem pick_mem (l : List α) (d : α) (n : Nat) (h : l ≠ []) : pick l d n ∈ l := by
  have hlen : 0 < l.length := List.length_pos.mpr h
  have hm : n % l.length < l.length := Nat.mod_lt _ hlen
  unfold pick
  rw [List.getD_eq_getElem?_getD, List.getElem?_eq_getElem hm, Option.getD_some]
  exact List.getElem_mem hm

/-- A successful data-dependent choice is a member of the list. -/
theorem rchoice_mem {l : List α} {n : Nat} {a : α} (h : rchoice l n = some a) : a ∈ l := by
  unfold rchoice at h
  rw [List.getElem?_eq_some_iff] at h
  obtain ⟨hlt, rfl⟩ := h
  exact List.getElem_mem hlt

/-- A data-dependent choice from a nonempty list succeeds. -/
theorem rchoice_isSome (l : List α) (n : Nat) (h : l ≠ []) : ∃ a, rchoice l n = some a := by
  have hlen : 0 < l.length := List.length_pos.mpr h
  have hm : n % l.length < l.length := Nat.mod_lt _ hlen
  exact ⟨_, by unfold rchoice; exact List.getElem?_eq_getElem hm⟩

/-- Length is preserved by a successful `optMap`. -/
theorem optMap_length {f : α → Option β} :
    ∀ {l : List α} {bs : List β}, optMap f l = some bs → bs.length = l.length := by
  intro l
  induction l with
  | nil => intro bs h; simp only [optMap, Option.some_inj] at h; subst h; rfl
  | cons a as ih =>
    intro bs h
    simp only [optMap] at h
    cases hfa : f a with
    | none => rw [hfa] at h; exact absurd h (by simp)
    | some b =>
      cases hrec : optMap f as with
      | none => rw [hfa, hrec] at h; exact absurd h (by simp)
      | some bs' =>
        rw [hfa, hrec] at h
        simp only [Option.some_inj] at h
        subst h
        simp [ih hrec]

/-- Every element of a successful `optMap` comes from an element of the
input list. -/
theorem optMap_mem {f : α → Option β} :
    ∀ {l : List α} {bs : List β}, optMap f l = some bs → ∀ b ∈ bs, ∃ a ∈ l, f a = some b := by
  intro l
  induction l with
  | nil =>
    intro bs h b hb
    simp only [optMap, Option.some_inj] at h
    subst h
    simp at hb
  | cons a as ih =>
    intro bs h b hb
    simp only [optMap] at h
    cases hfa : f a with
    | none => rw [hfa] at h; exact absurd h (by simp)
    | some b0 =>
      cases hrec : optMap f as with
      | none => rw [hfa, hrec] at h; exact absurd h (by simp)
      | some bs' =>
        rw [hfa, hrec] at h
        simp only [Option.some_inj] at h
        subst h
        rcases List.mem_cons.mp hb with hb | hb
        · exact ⟨a, List.mem_cons_self a as, hb ▸ hfa⟩
        · obtain ⟨a', ha', hfa'⟩ := ih hrec b hb
          exact ⟨a', List.mem_cons_of_mem _ ha', hfa'⟩

/-- If every step of an `optMap` succeeds, the whole map succeeds. -/
theorem optMap_isSome {f : α → Option β} :
    ∀ {l : List α}, (∀ a ∈ l, ∃ b, f a = some b) → ∃ bs, optMap f l = some bs := by
  intro l
  induction l with
  | nil => intro _; exact ⟨[], rfl⟩
  | cons a as ih =>
    intro h
    obtain ⟨b, hb⟩ := h a (List.mem_cons_self a as)
    obtain ⟨bs, hbs⟩ := ih fun a' ha' => h a' (List.mem_cons_of_mem _ ha')
    exact ⟨b :: bs, by simp only [optMap]; rw [hb, hbs]⟩

/-- Pointwise image of a successful `optMap`: if `f a = some b` always
forces `g b = h a`, the produced list maps through `g` as the input maps
through `h`. -/
theorem optMap_map_eq {f : α → Option β} {g : β → γ} {h : α → γ}
    (hc : ∀ a b, f a = some b → g b = h a) :
    ∀ {l : List α} {bs : List β}, optMap f l = some bs → bs.map g = l.map h := by
  intro l
  induction l with
  | nil => intro bs hl; simp only [optMap, Option.some_inj] at hl; subst hl; rfl
  | cons a as ih =>
    intro bs hl
    simp only [optMap] at hl
    cases hfa : f a with
    | none => rw [hfa] at hl; exact absurd hl (by simp)
    | some b =>
      cases hrec : optMap f as with
      | none => rw [hfa, hrec] at hl; exact absurd hl (by simp)
      | some bs' =>
        rw [hfa, hrec] at hl
        simp only [Option.some_inj] at hl
        subst hl
        simp [hc a b hfa, ih hrec]

/-! ### Facts about currency rounding -/

/-- Sums of 2-decimal currency values are 2-decimal: re-rounding the sum
of two rounded values changes nothing. -/
theorem round2_add_round2 (a b : ℚ) : round2 (round2 a + round2 b) = round2 a + round2 b := by
  unfold round2
  have h : (((round (a * 100) : ℤ) : ℚ) / 100 + ((round (b * 100) : ℤ) : ℚ) / 100) * 100
      = ((round (a * 100) + round (b * 100) : ℤ) : ℚ) := by
    push_cast
    ring
  rw [h, round_intCast]
  push_cast
  ring

/-- Rounding to 2 decimals moves a value up by at most half a cent. -/
theorem round2_le (q : ℚ) : round2 q ≤ q + 1 / 200 := by
  have h : |q * 100 - round (q * 100)| ≤ 1 / 2 := abs_sub_round _
  have h2 := abs_le.mp h
  unfold round2
  linarith [h2.1, h2.2]

/-! ### Facts about the service-call generators -/

/-- Unfolding of the full generator to the shared build expression. -/
theorem generate_service_calls_def (ρ : Nat → ServiceCallRand) (cs : List Customer)
    (ts : List Technician) (es : List EquipmentType) (n : Nat) :
    generate_service_calls ρ cs ts es n =
      (optMap (fun i => service_call_row (ρ i) (i + 1) cs ts es) (List.range n)).map
        set_total_cost := rfl

/-- Unfolding of the incremental generator to the shared build expression. -/
theorem generate_service_calls_incremental_def (ρ : Nat → ServiceCallRand) (n s : Nat)
    (cs : List Customer) (ts : List Technician) (es : List EquipmentType) :
    generate_service_calls_incremental ρ n s cs ts es =
      (optMap (fun i => service_call_row (ρ i) (s + i) cs ts es) (List.range n)).map
        set_total_cost := rfl

/-- Field-level description of one successfully built service-call row. -/
theorem service_call_row_spec {r : ServiceCallRand} {sid : Nat} {cs : List Customer}
    {ts : List Technician} {es : List EquipmentType} {row : ServiceCall}
    (h : service_call_row r sid cs ts es = some row) :
    row.service_call_id = sid ∧
    row.customer_id ∈ cs.map Customer.customer_id ∧
    row.technician_id ∈ ts.map Technician.technician_id ∧
    row.equipment_id ∈ es.map EquipmentType.equipment_id ∧
    row.labor_cost = round2 (round1 r.durU * (r.rate : ℚ)) ∧
    row.parts_cost = round2 r.partsU ∧
    row.total_cost = 0 := by
  simp only [service_call_row, Option.bind_eq_bind, Option.bind_eq_some, Option.pure_def,
    Option.some_inj] at h
  obtain ⟨cid, hc, tid, ht, eid, he, hrow⟩ := h
  subst hrow
  exact ⟨rfl, rchoice_mem hc, rchoice_mem ht, rchoice_mem he, rfl, rfl, rfl⟩

/-- One service-call row builds successfully when all three parent tables
are nonempty. -/
theorem service_call_row_isSome (r : ServiceCallRand) (sid : Nat) {cs : List Customer}
    {ts : List Technician} {es : List EquipmentType}
    (hc : cs ≠ []) (ht : ts ≠ []) (he : es ≠ []) :
    ∃ row, service_call_row r sid cs ts es = some row := by
  obtain ⟨cid, h1⟩ := rchoice_isSome (cs.map Customer.customer_id) r.custIdx
    (fun hh => hc (List.map_eq_nil_iff.mp hh))
  obtain ⟨tid, h2⟩ := rchoice_isSome (ts.map Technician.technician_id) r.techIdx
    (fun hh => ht (List.map_eq_nil_iff.mp hh))
  obtain ⟨eid, h3⟩ := rchoice_isSome (es.map EquipmentType.equipment_id) r.equipIdx
    (fun hh => he (List.map_eq_nil_iff.mp hh))
  exact ⟨_, by simp only [service_call_row]; rw [h1, h2, h3]; rfl⟩

/-- Everything the claims need about one run of either service-call
generator, stated over the shared build expression with an arbitrary id
assignment `idf`. -/
theorem sc_build_spec (ρ : Nat → ServiceCallRand) (idf : Nat → Nat) {cs : List Customer}
    {ts : List Technician} {es : List EquipmentType} (n : Nat)
    (hc : cs ≠ []) (ht : ts ≠ []) (he : es ≠ []) :
    ∃ rows,
      (optMap (fun i => service_call_row (ρ i) (idf i) cs ts es) (List.range n)).map
          set_total_cost = some rows ∧
      rows.length = n ∧
      rows.map ServiceCall.service_call_id = (List.range n).map idf ∧
      ∀ row ∈ rows,
        row.customer_id ∈ cs.map Customer.customer_id ∧
        row.technician_id ∈ ts.map Technician.technician_id ∧
        row.equipment_id ∈ es.map EquipmentType.equipment_id ∧
        row.total_cost = row.labor_cost + row.parts_cost ∧
        round2 row.total_cost = row.total_cost := by
  obtain ⟨bs, hbs⟩ := optMap_isSome
    (f := fun i => service_call_row (ρ i) (idf i) cs ts es) (l := List.range n)
    (fun i _ => service_call_row_isSome (ρ i) (idf i) hc ht he)
  refine ⟨set_total_cost bs, by rw [hbs]; rfl, ?_, ?_, ?_⟩
  · have h1 : (set_total_cost bs).length = bs.length := List.length_map _ _
    rw [h1, optMap_length hbs, List.length_range]
  · have h1 : (set_total_cost bs).map ServiceCall.service_call_id
        = bs.map ServiceCall.service_call_id := by
      simp [set_total_cost, List.map_map]
    rw [h1]
    exact optMap_map_eq (fun i row hrow => (service_call_row_spec hrow).1) hbs
  · intro row hrow
    obtain ⟨r0, hr0, hshape⟩ := List.mem_map.mp hrow
    obtain ⟨i, _, hi⟩ := optMap_mem hbs r0 hr0
    obtain ⟨_, hcid, htid, heid, hlab, hpar, _⟩ := service_call_row_spec hi
    subst hshape
    refine ⟨hcid, htid, heid, rfl, ?_⟩
    show round2 (r0.labor_cost + r0.parts_cost) = r0.labor_cost + r0.parts_cost
    rw [hlab, hpar]
    exact round2_add_round2 _ _

/-! ### Facts about incidents, appointments and parts usage -/

/-- The payload of an enumerated element is a member of the list. -/
theorem enum_snd_mem {l : List α} {k : Nat} {a : α} (h : (k, a) ∈ l.enum) : a ∈ l := by
  rw [List.mk_mem_enum_iff_getElem?] at h
  rw [List.getElem?_eq_some_iff] at h
  obtain ⟨hlt, rfl⟩ := h
  exact List.getElem_mem hlt

/-- Everything the claims need about one run of the incident-response
generator: it succeeds whenever the technicians frame is nonempty, its row
count is the requested count clamped to the Emergency pool, and each row
is keyed to an Emergency service call whose technician it copies. -/
theorem generate_incident_response_spec (ρ : Nat → IncidentRand) (calls : List ServiceCall)
    (techs : List Technician) (n : Nat) (ht : techs ≠ []) :
    ∃ rows, generate_incident_response ρ calls techs n = some rows ∧
      rows.length = min n ((calls.filter fun c => c.service_type == "Emergency").length) ∧
      ∀ row ∈ rows, ∃ call ∈ calls, call.service_type = "Emergency" ∧
        row.service_call_id = call.service_call_id ∧
        row.responding_technician_id = call.technician_id := by
  have htid : techs.map Technician.technician_id ≠ [] :=
    fun hh => ht (List.map_eq_nil_iff.mp hh)
  have htotal : ∀ i ∈ List.range
      (min n ((calls.filter fun c => c.service_type == "Emergency").length)),
      ∃ row, incident_row (ρ i) i
        ((calls.filter fun c => c.service_type == "Emergency").getD
          (i % (calls.filter fun c => c.service_type == "Emergency").length) default)
        techs = some row := by
    intro i _
    rw [← Option.isSome_iff_exists]
    by_cases hb : (ρ i).backupCoin
    · obtain ⟨t, htc⟩ := rchoice_isSome (techs.map Technician.technician_id) (ρ i).backupIdx htid
      simp [incident_row, hb, htc]
    · simp [incident_row, hb]
  obtain ⟨rows, hrows⟩ := optMap_isSome htotal
  refine ⟨rows, hrows, ?_, ?_⟩
  · rw [optMap_length hrows, List.length_range]
  · intro row hrow
    obtain ⟨i, hi, hfi⟩ := optMap_mem hrows row hrow
    rw [List.mem_range] at hi
    have hlt : i < (calls.filter fun c => c.service_type == "Emergency").length :=
      lt_of_lt_of_le hi (min_le_right _ _)
    have hmodlt : i % (calls.filter fun c => c.service_type == "Emergency").length
        < (calls.filter fun c => c.service_type == "Emergency").length :=
      Nat.mod_lt _ (by omega)
    have hcall : (calls.filter fun c => c.service_type == "Emergency").getD
        (i % (calls.filter fun c => c.service_type == "Emergency").length) default
        ∈ calls.filter fun c => c.service_type == "Emergency" := by
      rw [List.getD_eq_getElem?_getD, List.getElem?_eq_getElem hmodlt, Option.getD_some]
      exact List.getElem_mem hmodlt
    obtain ⟨hmem, hpred⟩ := List.mem_filter.mp hcall
    have hshape : ∃ backup, row =
        { incident_id := i + 1
          service_call_id := ((calls.filter fun c => c.service_type == "Emergency").getD
            (i % (calls.filter fun c => c.service_type == "Emergency").length)
            default).service_call_id
          incident_type := pick incident_types "" (ρ i).typeIdx
          severity_level := pick ["Low", "Medium", "High", "Critical"] "" (ρ i).sevIdx
          reported_time := (ρ i).reported
          response_time_minutes := (ρ i).respTime
          resolution_time_minutes := (ρ i).resolTime
          responding_technician_id := ((calls.filter fun c => c.service_type == "Emergency").getD
            (i % (calls.filter fun c => c.service_type == "Emergency").length)
            default).technician_id
          backup_technician_id := backup
          resolution_status :=
            pick ["Resolved", "Pending", "Escalated", "Requires Follow-up"] "" (ρ i).statusIdx
          customer_satisfaction := (ρ i).satisf
          follow_up_required := (ρ i).followUp } := by
      by_cases hb : (ρ i).backupCoin
      · simp only [incident_row, hb, if_true, Option.bind_eq_bind, Option.bind_eq_some,
          Option.map_eq_map, Option.map_eq_some', Option.pure_def, Option.some_inj] at hfi
        obtain ⟨backup, _, hrow_eq⟩ := hfi
        exact ⟨backup, hrow_eq.symm⟩
      · simp only [Bool.not_eq_true] at hb
        simp only [incident_row, hb, Bool.false_eq_true, if_false, Option.bind_eq_bind,
          Option.some_bind, Option.pure_def, Option.some_inj] at hfi
        exact ⟨none, hfi.symm⟩
    obtain ⟨backup, hrow_eq⟩ := hshape
    subst hrow_eq
    exact ⟨_, hmem, by simpa using hpred, rfl, rfl⟩

/-- Sequential numbering does not change the number of appointments. -/
theorem number_appointments_length (rows : List Appointment) :
    (number_appointments rows).length = rows.length := by
  simp [number_appointments]

/-- The appointments generator succeeds whenever customers and technicians
are nonempty, and always produces one row per service call plus the
truncated remainder of the requested count — `max` of the two, never the
requested count alone. -/
theorem generate_appointments_spec (ρ1 : Nat → ApptCallRand) (ρ2 : Nat → ApptFutureRand)
    (cs : List Customer) (ts : List Technician) (calls : List ServiceCall) (n : Nat)
    (hc : cs ≠ []) (ht : ts ≠ []) :
    ∃ rows, generate_appointments ρ1 ρ2 cs ts calls n = some rows ∧
      rows.length = calls.length + (n - calls.length) := by
  have hcid : cs.map Customer.customer_id ≠ [] := fun hh => hc (List.map_eq_nil_iff.mp hh)
  have htid : ts.map Technician.technician_id ≠ [] := fun hh => ht (List.map_eq_nil_iff.mp hh)
  have htotal : ∀ i ∈ List.range
      (n - (calls.enum.map fun ic => appointment_from_call (ρ1 ic.1) ic.2).length),
      ∃ row, future_appointment_row (ρ2 i) cs ts = some row := by
    intro i _
    rw [← Option.isSome_iff_exists]
    obtain ⟨c, hc1⟩ := rchoice_isSome (cs.map Customer.customer_id) (ρ2 i).custIdx hcid
    obtain ⟨t, ht1⟩ := rchoice_isSome (ts.map Technician.technician_id) (ρ2 i).techIdx htid
    simp [future_appointment_row, hc1, ht1]
  obtain ⟨future, hfut⟩ := optMap_isSome htotal
  refine ⟨number_appointments
    ((calls.enum.map fun ic => appointment_from_call (ρ1 ic.1) ic.2) ++ future), ?_, ?_⟩
  · show (optMap (fun i => future_appointment_row (ρ2 i) cs ts)
        (List.range (n - (calls.enum.map fun ic =>
          appointment_from_call (ρ1 ic.1) ic.2).length))).map
        (fun fut => number_appointments
          ((calls.enum.map fun ic => appointment_from_call (ρ1 ic.1) ic.2) ++ fut))
      = some (number_appointments
          ((calls.enum.map fun ic => appointment_from_call (ρ1 ic.1) ic.2) ++ future))
    rw [hfut]
    rfl
  · rw [number_appointments_length, List.length_append, List.length_map, List.enum_length,
      optMap_length hfut, List.length_range, List.length_map, List.enum_length]

/-- The parts-usage generator succeeds whenever the parts frame is
nonempty, and every produced row references a part of the parts frame and
the service call it was generated for. -/
theorem generate_parts_usage_spec (ρ : Nat → PartsUsageRand) (calls : List ServiceCall)
    (parts : List PartRow) (hp : parts ≠ []) :
    ∃ rows, generate_parts_usage ρ calls parts = some rows ∧
      ∀ u ∈ rows, u.part_id ∈ parts.map PartRow.part_id ∧
        u.service_call_id ∈ calls.map ServiceCall.service_call_id := by
  have hpid : parts.map PartRow.part_id ≠ [] := fun hh => hp (List.map_eq_nil_iff.mp hh)
  have hinner : ∀ ic ∈ calls.enum,
      ∃ g, parts_usage_rows_for_call (ρ ic.1) ic.2 parts = some g := by
    intro ic _
    apply optMap_isSome
    intro j _
    rw [← Option.isSome_iff_exists]
    obtain ⟨pid, hpid2⟩ := rchoice_isSome (parts.map PartRow.part_id) ((ρ ic.1).partIdx j) hpid
    simp [hpid2]
  obtain ⟨groups, hg⟩ := optMap_isSome hinner
  refine ⟨number_usages groups.flatten, ?_, ?_⟩
  · show (optMap (fun ic => parts_usage_rows_for_call (ρ ic.1) ic.2 parts) calls.enum).map
        (fun gs => number_usages gs.flatten) = some (number_usages groups.flatten)
    rw [hg]
    rfl
  · intro u hu
    obtain ⟨⟨k, u0⟩, hk, hu_eq⟩ := List.mem_map.mp hu
    subst hu_eq
    have hu0 : u0 ∈ groups.flatten := enum_snd_mem hk
    obtain ⟨g, hgmem, hu0g⟩ := List.mem_flatten.mp hu0
    obtain ⟨ic, hic, hfg⟩ := optMap_mem hg g hgmem
    obtain ⟨j, _, hj⟩ := optMap_mem hfg u0 hu0g
    simp only [Option.bind_eq_bind, Option.bind_eq_some, Option.pure_def,
      Option.some_inj] at hj
    obtain ⟨pid, hpid3, hrow_eq⟩ := hj
    subst hrow_eq
    refine ⟨rchoice_mem hpid3, ?_⟩
    exact List.mem_map.mpr ⟨ic.2, enum_snd_mem (by exact hic), rfl⟩

/-! ### Facts about payments -/

/-- One-step unfolding of the payments loop. -/
theorem payments_loop_cons (ρ : Nat → PaymentRand) (i pid : Nat) (inv : Invoice)
    (rest : List Invoice) :
    payments_loop ρ i pid (inv :: rest) =
      if inv.status = "Paid" then
        full_payment (ρ i) pid inv :: payments_loop ρ (i + 1) (pid + 1) rest
      else if inv.status = "Pending" ∧ (ρ i).payCoin then
        part_payment (ρ i) pid inv :: payments_loop ρ (i + 1) (pid + 1) rest
      else payments_loop ρ (i + 1) pid rest := rfl

/-- Unfolding of the payments generator to loop plus payable filter. -/
theorem generate_payments_def (ρ : Nat → PaymentRand) (invoices : List Invoice) :
    generate_payments ρ invoices =
      payments_loop ρ 0 1
        (invoices.filter fun inv => inv.status == "Paid" || inv.status == "Pending") := rfl

/-- Every payment produced by the loop carries the id of one of the looped
invoices. -/
theorem payments_loop_invoice_id {ρ : Nat → PaymentRand} :
    ∀ {invs : List Invoice} {i pid : Nat} {p : Payment},
      p ∈ payments_loop ρ i pid invs → ∃ inv ∈ invs, p.invoice_id = inv.invoice_id := by
  intro invs
  induction invs with
  | nil => intro i pid p hp; simp [payments_loop] at hp
  | cons inv rest ih =>
    intro i pid p hp
    rw [payments_loop_cons] at hp
    split at hp
    · rcases List.mem_cons.mp hp with rfl | hp'
      · exact ⟨inv, List.mem_cons_self inv rest, rfl⟩
      · obtain ⟨inv', h1, h2⟩ := ih hp'
        exact ⟨inv', List.mem_cons_of_mem _ h1, h2⟩
    · split at hp
      · rcases List.mem_cons.mp hp with rfl | hp'
        · exact ⟨inv, List.mem_cons_self inv rest, rfl⟩
        · obtain ⟨inv', h1, h2⟩ := ih hp'
          exact ⟨inv', List.mem_cons_of_mem _ h1, h2⟩
      · obtain ⟨inv', h1, h2⟩ := ih hp
        exact ⟨inv', List.mem_cons_of_mem _ h1, h2⟩

/-- A loop over invoices none of which carries id `j` contributes no
payment with invoice id `j`. -/
theorem payments_loop_filter_eq_nil {ρ : Nat → PaymentRand} {j : Nat} {invs : List Invoice}
    {i pid : Nat} (h : ∀ inv ∈ invs, inv.invoice_id ≠ j) :
    (payments_loop ρ i pid invs).filter (fun p => p.invoice_id == j) = [] := by
  rw [List.filter_eq_nil_iff]
  intro p hp
  obtain ⟨inv, hmem, hpid⟩ := payments_loop_invoice_id hp
  simp [hpid, h inv hmem]

/-- Payments carrying a given invoice's id, when that id is unique among
the looped invoices: exactly one full payment if the invoice is Paid, at
most one fractional payment if it is Pending. -/
theorem payments_loop_spec (ρ : Nat → PaymentRand) :
    ∀ {invs : List Invoice} {i pid : Nat} {inv : Invoice},
      inv ∈ invs → (invs.map Invoice.invoice_id).Nodup →
      ((inv.status = "Paid" →
          ∃ k pid2, (payments_loop ρ i pid invs).filter
            (fun p => p.invoice_id == inv.invoice_id) = [full_payment (ρ k) pid2 inv]) ∧
       (inv.status = "Pending" →
          ((payments_loop ρ i pid invs).filter
            (fun p => p.invoice_id == inv.invoice_id) = [] ∨
           ∃ k pid2, (payments_loop ρ i pid invs).filter
             (fun p => p.invoice_id == inv.invoice_id) = [part_payment (ρ k) pid2 inv]))) := by
  intro invs
  induction invs with
  | nil => intro i pid inv hmem _; exact absurd hmem (List.not_mem_nil inv)
  | cons inv0 rest ih =>
    intro i pid inv hmem hnd
    rw [List.map_cons, List.nodup_cons] at hnd
    obtain ⟨hid0, hnd_rest⟩ := hnd
    rcases List.mem_cons.mp hmem with rfl | hmem_rest
    · have hrest_ne : ∀ q ∈ rest, q.invoice_id ≠ inv.invoice_id := by
        intro q hq hqe
        exact hid0 (hqe ▸ List.mem_map_of_mem Invoice.invoice_id hq)
      constructor
      · intro hpaid
        rw [payments_loop_cons, if_pos hpaid,
          List.filter_cons_of_pos (by simp [full_payment]),
          payments_loop_filter_eq_nil hrest_ne]
        exact ⟨i, pid, rfl⟩
      · intro hpend
        have hnp : ¬(inv.status = "Paid") := by simp [hpend]
        by_cases hcoin : (ρ i).payCoin
        · right
          rw [payments_loop_cons, if_neg hnp, if_pos ⟨hpend, hcoin⟩,
            List.filter_cons_of_pos (by simp [part_payment]),
            payments_loop_filter_eq_nil hrest_ne]
          exact ⟨i, pid, rfl⟩
        · left
          rw [payments_loop_cons, if_neg hnp, if_neg (fun hh => hcoin hh.2)]
          exact payments_loop_filter_eq_nil hrest_ne
    · have hne : inv0.invoice_id ≠ inv.invoice_id := by
        intro he
        exact hid0 (he ▸ List.mem_map_of_mem Invoice.invoice_id hmem_rest)
      constructor
      · intro hpaid
        rw [payments_loop_cons]
        split
        · rw [List.filter_cons_of_neg (by simp [full_payment, hne])]
          exact (ih hmem_rest hnd_rest).1 hpaid
        · split
          · rw [List.filter_cons_of_neg (by simp [part_payment, hne])]
            exact (ih hmem_rest hnd_rest).1 hpaid
          · exact (ih hmem_rest hnd_rest).1 hpaid
      · intro hpend
        rw [payments_loop_cons]
        split
        · rcases (ih hmem_rest hnd_rest).2 hpend with h | ⟨k, pid2, h⟩
          · left
            rw [List.filter_cons_of_neg (by simp [full_payment, hne])]
            exact h
          · right
            refine ⟨k, pid2, ?_⟩
            rw [List.filter_cons_of_neg (by simp [full_payment, hne])]
            exact h
        · split
          · rcases (ih hmem_rest hnd_rest).2 hpend with h | ⟨k, pid2, h⟩
            · left
              rw [List.filter_cons_of_neg (by simp [part_payment, hne])]
              exact h
            · right
              refine ⟨k, pid2, ?_⟩
              rw [List.filter_cons_of_neg (by simp [part_payment, hne])]
              exact h
          · exact (ih hmem_rest hnd_rest).2 hpend

/-! ### Claim theorems -/

/-- Claim C8: for every generated Invoice row, `total_amount` equals
`subtotal + tax_amount`, and `tax_amount` equals
`round(subtotal * tax_rate, 2)`. -/
theorem invoice_totals_consistent (ρ : Nat → InvoiceRand) (σ : Nat → Nat)
    (service_calls : List ServiceCall) (customers : List Customer) (n_invoices : Option Nat) :
    ∀ inv ∈ generate_invoices ρ σ service_calls customers n_invoices,
      inv.total_amount = inv.subtotal + inv.tax_amount ∧
      inv.tax_amount = round2 (inv.subtotal * inv.tax_rate) := by
  intro inv hinv
  simp only [generate_invoices] at hinv
  obtain ⟨ic, _, rfl⟩ := List.mem_map.mp hinv
  exact ⟨rfl, rfl⟩

/-- Every skill entry produced for a technician is the tier base value
plus the per-skill variance draw, clamped into `[1, 10]`. -/
theorem technician_skills_of_spec (level : String) (v : Nat → Int) :
    ∀ sv ∈ technician_skills_of level v,
      ∃ j, sv.2 = max 1 (min 10 (base_skill level + v j)) := by
  intro sv hsv
  obtain ⟨js, _, rfl⟩ := List.mem_map.mp hsv
  exact ⟨js.1, rfl⟩

/-- Claim C9: every per-skill value of every generated Technician row (in
full and incremental generation) lies in `[1, 10]` and is the level's tier
base value plus a bounded random variance, clamped into `[1, 10]`. -/
theorem technician_skills_in_range
    (ρ ρ2 : Nat → TechnicianRand) (n n2 s2 : Nat)
    (hvar : ∀ i j, -2 ≤ (ρ i).variance j ∧ (ρ i).variance j ≤ 2)
    (hvar2 : ∀ i j, -2 ≤ (ρ2 i).variance j ∧ (ρ2 i).variance j ≤ 2) :
    (∀ t ∈ generate_technicians ρ n, ∀ sv ∈ t.skills,
        (1 ≤ sv.2 ∧ sv.2 ≤ 10) ∧
        ∃ v, -2 ≤ v ∧ v ≤ 2 ∧ sv.2 = max 1 (min 10 (base_skill t.technician_level + v))) ∧
    (∀ t ∈ generate_technicians_incremental ρ2 n2 s2, ∀ sv ∈ t.skills,
        (1 ≤ sv.2 ∧ sv.2 ≤ 10) ∧
        ∃ v, -2 ≤ v ∧ v ≤ 2 ∧ sv.2 = max 1 (min 10 (base_skill t.technician_level + v))) := by
  constructor
  · intro t ht sv hsv
    obtain ⟨i, _, rfl⟩ := List.mem_map.mp ht
    obtain ⟨j, hj⟩ := technician_skills_of_spec _ _ sv hsv
    refine ⟨⟨?_, ?_⟩, (ρ i).variance j, (hvar i j).1, (hvar i j).2, hj⟩
    · rw [hj]; exact le_max_left _ _
    · rw [hj]; exact max_le (by norm_num) (min_le_left _ _)
  · intro t ht sv hsv
    obtain ⟨i, _, rfl⟩ := List.mem_map.mp ht
    obtain ⟨j, hj⟩ := technician_skills_of_spec _ _ sv hsv
    refine ⟨⟨?_, ?_⟩, (ρ2 i).variance j, (hvar2 i j).1, (hvar2 i j).2, hj⟩
    · rw [hj]; exact le_max_left _ _
    · rw [hj]; exact max_le (by norm_num) (min_le_left _ _)

/-- Witness for C9 at a concrete randomness stream. -/
theorem technician_skills_in_range_witness :
    (∀ t ∈ generate_technicians (fun _ => default) 2, ∀ sv ∈ t.skills,
        (1 ≤ sv.2 ∧ sv.2 ≤ 10) ∧
        ∃ v, -2 ≤ v ∧ v ≤ 2 ∧ sv.2 = max 1 (min 10 (base_skill t.technician_level + v))) ∧
    (∀ t ∈ generate_technicians_incremental (fun _ => default) 1 16, ∀ sv ∈ t.skills,
        (1 ≤ sv.2 ∧ sv.2 ≤ 10) ∧
        ∃ v, -2 ≤ v ∧ v ≤ 2 ∧ sv.2 = max 1 (min 10 (base_skill t.technician_level + v))) :=
  technician_skills_in_range (fun _ => default) (fun _ => default) 2 1 16
    (fun i j => show (-2 : Int) ≤ 0 ∧ (0 : Int) ≤ 2 from ⟨by norm_num, by norm_num⟩)
    (fun i j => show (-2 : Int) ≤ 0 ∧ (0 : Int) ≤ 2 from ⟨by norm_num, by norm_num⟩)

/-- Every element of a list of naturals is bounded by the fold of `max`
that models a pandas column maximum. -/
theorem le_foldr_max : ∀ {l : List Nat} {x : Nat}, x ∈ l → x ≤ l.foldr max 0 := by
  intro l
  induction l with
  | nil => intro x h; exact absurd h (List.not_mem_nil x)
  | cons a as ih =>
    intro x h
    rcases List.mem_cons.mp h with rfl | h'
    · exact le_max_left _ _
    · exact le_trans (ih h') (le_max_right _ _)

/-- Claim C6: an incremental run keys each base table from the existing
maximum plus one — the new customer ids are exactly the dense, strictly
increasing block starting at `max + 1` and collide with no existing id;
a full run's ids are the dense block starting at `1`; the other base
tables key incrementally from their `start_id` the same way. -/
theorem incremental_keys_start_after_existing_max
    (ρc ρc2 : Nat → CustomerRand) (ρt : Nat → TechnicianRand) (ρe : Nat → EquipmentRand)
    (ρp : Nat → PartRand) (existing : List Customer) (n nf nt ne np st se sp : Nat) :
    ((generate_customers_incremental ρc n (max_customer_id existing + 1)).map
        Customer.customer_id = List.range' (max_customer_id existing + 1) n) ∧
    List.Pairwise (· < ·) ((generate_customers_incremental ρc n
        (max_customer_id existing + 1)).map Customer.customer_id) ∧
    (∀ c ∈ existing, ∀ a ∈ (generate_customers_incremental ρc n
        (max_customer_id existing + 1)).map Customer.customer_id, c.customer_id < a) ∧
    ((generate_customers ρc2 nf).map Customer.customer_id = List.range' 1 nf) ∧
    List.Pairwise (· < ·) ((generate_customers ρc2 nf).map Customer.customer_id) ∧
    ((generate_technicians_incremental ρt nt st).map Technician.technician_id
        = List.range' st nt) ∧
    ((generate_equipment_types_incremental ρe ne se).map EquipmentType.equipment_id
        = List.range' se ne) ∧
    ((generate_parts_incremental ρp np sp).map PartRow.part_id = List.range' sp np) := by
  have hinc : ∀ (ρ : Nat → CustomerRand) (m s : Nat),
      (generate_customers_incremental ρ m s).map Customer.customer_id = List.range' s m := by
    intro ρ m s
    simp [generate_customers_incremental, List.map_map, List.range'_eq_map_range]
  refine ⟨hinc ρc n _, ?_, ?_, ?_, ?_, ?_, ?_, ?_⟩
  · rw [hinc]
    exact List.pairwise_lt_range' _ _
  · intro c hc a ha
    rw [hinc, List.mem_range'_1] at ha
    have hle : c.customer_id ≤ max_customer_id existing :=
      le_foldr_max (List.mem_map_of_mem Customer.customer_id hc)
    omega
  · simp [generate_customers, List.map_map, List.range'_eq_map_range, Nat.add_comm]
  · have h1 : (generate_customers ρc2 nf).map Customer.customer_id = List.range' 1 nf := by
      simp [generate_customers, List.map_map, List.range'_eq_map_range, Nat.add_comm]
    rw [h1]
    exact List.pairwise_lt_range' _ _
  · simp [generate_technicians_incremental, technician_row, List.map_map,
      List.range'_eq_map_range]
  · simp [generate_equipment_types_incremental, equipment_row, List.map_map,
      List.range'_eq_map_range]
  · simp [generate_parts_incremental, part_row, List.map_map, List.range'_eq_map_range]

/-- Claim C7: in both the full and incremental service-call generators,
every generated row satisfies `total_cost = labor_cost + parts_cost`
exactly, and the total is an exact 2-decimal currency value. -/
theorem service_call_total_cost_consistent
    (ρ ρ2 : Nat → ServiceCallRand) (cs cs2 : List Customer) (ts ts2 : List Technician)
    (es es2 : List EquipmentType) (n n2 s2 : Nat)
    (hc : cs ≠ []) (ht : ts ≠ []) (he : es ≠ [])
    (hc2 : cs2 ≠ []) (ht2 : ts2 ≠ []) (he2 : es2 ≠ []) :
    (∃ rows, generate_service_calls ρ cs ts es n = some rows ∧
      ∀ row ∈ rows, row.total_cost = row.labor_cost + row.parts_cost ∧
        round2 row.total_cost = row.total_cost) ∧
    (∃ rows, generate_service_calls_incremental ρ2 n2 s2 cs2 ts2 es2 = some rows ∧
      ∀ row ∈ rows, row.total_cost = row.labor_cost + row.parts_cost ∧
        round2 row.total_cost = row.total_cost) := by
  constructor
  · obtain ⟨rows, h1, _, _, h4⟩ := sc_build_spec ρ (fun i => i + 1) n hc ht he
    refine ⟨rows, ?_, fun row hr => ⟨(h4 row hr).2.2.2.1, (h4 row hr).2.2.2.2⟩⟩
    rw [generate_service_calls_def]
    exact h1
  · obtain ⟨rows, h1, _, _, h4⟩ := sc_build_spec ρ2 (fun i => s2 + i) n2 hc2 ht2 he2
    refine ⟨rows, ?_, fun row hr => ⟨(h4 row hr).2.2.2.1, (h4 row hr).2.2.2.2⟩⟩
    rw [generate_service_calls_incremental_def]
    exact h1

/-- Witness for C7 at concrete singleton parent tables. -/
theorem service_call_total_cost_consistent_witness :
    (∃ rows, generate_service_calls (fun _ => default) [sampleCustomer] [sampleTechnician]
        [sampleEquipment] 1 = some rows ∧
      ∀ row ∈ rows, row.total_cost = row.labor_cost + row.parts_cost ∧
        round2 row.total_cost = row.total_cost) ∧
    (∃ rows, generate_service_calls_incremental (fun _ => default) 1 2001 [sampleCustomer]
        [sampleTechnician] [sampleEquipment] = some rows ∧
      ∀ row ∈ rows, row.total_cost = row.labor_cost + row.parts_cost ∧
        round2 row.total_cost = row.total_cost) :=
  service_call_total_cost_consistent (fun _ => default) (fun _ => default)
    [sampleCustomer] [sampleCustomer] [sampleTechnician] [sampleTechnician]
    [sampleEquipment] [sampleEquipment] 1 1 2001
    (List.cons_ne_nil _ _) (List.cons_ne_nil _ _) (List.cons_ne_nil _ _)
    (List.cons_ne_nil _ _) (List.cons_ne_nil _ _) (List.cons_ne_nil _ _)

/-- Claim C5: incident-response rows reference only Emergency service
calls, and exactly `min(requested, emergency-pool size)` rows are
produced — clamped, not failing, when the pool is smaller. -/
theorem incident_rows_reference_emergency_calls
    (ρ : Nat → IncidentRand) (calls : List ServiceCall) (techs : List Technician) (n : Nat)
    (ht : techs ≠ []) :
    ∃ rows, generate_incident_response ρ calls techs n = some rows ∧
      rows.length = min n ((calls.filter fun c => c.service_type == "Emergency").length) ∧
      ∀ row ∈ rows, ∃ call ∈ calls, call.service_type = "Emergency" ∧
        row.service_call_id = call.service_call_id := by
  obtain ⟨rows, h1, h2, h3⟩ := generate_incident_response_spec ρ calls techs n ht
  refine ⟨rows, h1, h2, fun row hr => ?_⟩
  obtain ⟨call, hm, hA, hB, _⟩ := h3 row hr
  exact ⟨call, hm, hA, hB⟩

/-- Witness for C5 at one Emergency call and one technician. -/
theorem incident_rows_reference_emergency_calls_witness :
    ∃ rows, generate_incident_response (fun _ => default) [sampleEmergencyCall]
        [sampleTechnician] 150 = some rows ∧
      rows.length = min 150
        (([sampleEmergencyCall].filter fun c => c.service_type == "Emergency").length) ∧
      ∀ row ∈ rows, ∃ call ∈ [sampleEmergencyCall], call.service_type = "Emergency" ∧
        row.service_call_id = call.service_call_id :=
  incident_rows_reference_emergency_calls (fun _ => default) [sampleEmergencyCall]
    [sampleTechnician] 150 (List.cons_ne_nil _ _)

/-- Claim C10: every incident-response row copies its
`responding_technician_id` from the Emergency service call it references,
rather than sampling it independently. -/
theorem incident_responding_technician_copied
    (ρ : Nat → IncidentRand) (calls : List ServiceCall) (techs : List Technician) (n : Nat)
    (ht : techs ≠ []) :
    ∃ rows, generate_incident_response ρ calls techs n = some rows ∧
      ∀ row ∈ rows, ∃ call ∈ calls, call.service_type = "Emergency" ∧
        row.service_call_id = call.service_call_id ∧
        row.responding_technician_id = call.technician_id := by
  obtain ⟨rows, h1, _, h3⟩ := generate_incident_response_spec ρ calls techs n ht
  exact ⟨rows, h1, h3⟩

/-- Witness for C10 at one Emergency call and one technician. -/
theorem incident_responding_technician_copied_witness :
    ∃ rows, generate_incident_response (fun _ => default) [sampleEmergencyCall]
        [sampleTechnician] 1 = some rows ∧
      ∀ row ∈ rows, ∃ call ∈ [sampleEmergencyCall], call.service_type = "Emergency" ∧
        row.service_call_id = call.service_call_id ∧
        row.responding_technician_id = call.technician_id :=
  incident_responding_technician_copied (fun _ => default) [sampleEmergencyCall]
    [sampleTechnician] 1 (List.cons_ne_nil _ _)

/-- Claim C1: every foreign key of a generated service-call row resolves
to a row of the parent table in scope — the given frames in full mode, and
the union of the pre-existing frames with the freshly generated increment
in incremental mode; parts-usage rows likewise reference existing parts
and the service call they were generated for. -/
theorem service_call_foreign_keys_resolve
    (ρ ρ2 : Nat → ServiceCallRand) (ρc : Nat → CustomerRand) (ρt : Nat → TechnicianRand)
    (ρe : Nat → EquipmentRand) (ρu : Nat → PartsUsageRand)
    (cs : List Customer) (ts : List Technician) (es : List EquipmentType)
    (existingC : List Customer) (existingT : List Technician) (existingE : List EquipmentType)
    (parts : List PartRow) (calls : List ServiceCall)
    (n nC nT nE n2 sC sT sE s2 : Nat)
    (hc : cs ≠ []) (ht : ts ≠ []) (he : es ≠ [])
    (hex : existingC ≠ []) (hext : existingT ≠ []) (hexe : existingE ≠ [])
    (hp : parts ≠ []) :
    (∃ rows, generate_service_calls ρ cs ts es n = some rows ∧
      ∀ row ∈ rows, row.customer_id ∈ cs.map Customer.customer_id ∧
        row.technician_id ∈ ts.map Technician.technician_id ∧
        row.equipment_id ∈ es.map EquipmentType.equipment_id) ∧
    (∃ rows, generate_service_calls_incremental ρ2 n2 s2
        (existingC ++ generate_customers_incremental ρc nC sC)
        (existingT ++ generate_technicians_incremental ρt nT sT)
        (existingE ++ generate_equipment_types_incremental ρe nE sE) = some rows ∧
      ∀ row ∈ rows,
        row.customer_id ∈ (existingC ++ generate_customers_incremental ρc nC sC).map
          Customer.customer_id ∧
        row.technician_id ∈ (existingT ++ generate_technicians_incremental ρt nT sT).map
          Technician.technician_id ∧
        row.equipment_id ∈ (existingE ++ generate_equipment_types_incremental ρe nE sE).map
          EquipmentType.equipment_id) ∧
    (∃ rows, generate_parts_usage ρu calls parts = some rows ∧
      ∀ u ∈ rows, u.part_id ∈ parts.map PartRow.part_id ∧
        u.service_call_id ∈ calls.map ServiceCall.service_call_id) := by
  refine ⟨?_, ?_, generate_parts_usage_spec ρu calls parts hp⟩
  · obtain ⟨rows, h1, _, _, h4⟩ := sc_build_spec ρ (fun i => i + 1) n hc ht he
    refine ⟨rows, ?_, fun row hr => ⟨(h4 row hr).1, (h4 row hr).2.1, (h4 row hr).2.2.1⟩⟩
    rw [generate_service_calls_def]
    exact h1
  · have hcu : existingC ++ generate_customers_incremental ρc nC sC ≠ [] := by
      intro hh
      exact hex (List.append_eq_nil.mp hh).1
    have htu : existingT ++ generate_technicians_incremental ρt nT sT ≠ [] := by
      intro hh
      exact hext (List.append_eq_nil.mp hh).1
    have heu : existingE ++ generate_equipment_types_incremental ρe nE sE ≠ [] := by
      intro hh
      exact hexe (List.append_eq_nil.mp hh).1
    obtain ⟨rows, h1, _, _, h4⟩ := sc_build_spec ρ2 (fun i => s2 + i) n2 hcu htu heu
    refine ⟨rows, ?_, fun row hr => ⟨(h4 row hr).1, (h4 row hr).2.1, (h4 row hr).2.2.1⟩⟩
    rw [generate_service_calls_incremental_def]
    exact h1

/-- Witness for C1 at concrete singleton frames. -/
theorem service_call_foreign_keys_resolve_witness :
    (∃ rows, generate_service_calls (fun _ => default) [sampleCustomer] [sampleTechnician]
        [sampleEquipment] 1 = some rows ∧
      ∀ row ∈ rows, row.customer_id ∈ [sampleCustomer].map Customer.customer_id ∧
        row.technician_id ∈ [sampleTechnician].map Technician.technician_id ∧
        row.equipment_id ∈ [sampleEquipment].map EquipmentType.equipment_id) ∧
    (∃ rows, generate_service_calls_incremental (fun _ => default) 1 8
        ([sampleCustomer] ++ generate_customers_incremental (fun _ => default) 1 2)
        ([sampleTechnician] ++ generate_technicians_incremental (fun _ => default) 1 4)
        ([sampleEquipment] ++ generate_equipment_types_incremental (fun _ => default) 1 6)
        = some rows ∧
      ∀ row ∈ rows,
        row.customer_id ∈ ([sampleCustomer] ++ generate_customers_incremental
          (fun _ => default) 1 2).map Customer.customer_id ∧
        row.technician_id ∈ ([sampleTechnician] ++ generate_technicians_incremental
          (fun _ => default) 1 4).map Technician.technician_id ∧
        row.equipment_id ∈ ([sampleEquipment] ++ generate_equipment_types_incremental
          (fun _ => default) 1 6).map EquipmentType.equipment_id) ∧
    (∃ rows, generate_parts_usage (fun _ => puRandOne) [sampleEmergencyCall] [samplePart]
        = some rows ∧
      ∀ u ∈ rows, u.part_id ∈ [samplePart].map PartRow.part_id ∧
        u.service_call_id ∈ [sampleEmergencyCall].map ServiceCall.service_call_id) :=
  service_call_foreign_keys_resolve (fun _ => default) (fun _ => default) (fun _ => default)
    (fun _ => default) (fun _ => default) (fun _ => puRandOne)
    [sampleCustomer] [sampleTechnician] [sampleEquipment]
    [sampleCustomer] [sampleTechnician] [sampleEquipment]
    [samplePart] [sampleEmergencyCall]
    1 1 1 1 1 2 4 6 8
    (List.cons_ne_nil _ _) (List.cons_ne_nil _ _) (List.cons_ne_nil _ _)
    (List.cons_ne_nil _ _) (List.cons_ne_nil _ _) (List.cons_ne_nil _ _)
    (List.cons_ne_nil _ _)

/-- Claim C2, counterexample: at the full-run configuration (500
customers, 15 technicians, 50 equipment types, 2000 service calls,
`n_appointments = 500`) the appointments generator produces 2000 rows,
one per service call, not the requested 500. -/
theorem full_run_appointment_count_is_not_requested :
    ((generate_service_calls (fun _ => default)
        (generate_customers (fun _ => default) 500)
        (generate_technicians (fun _ => default) 15)
        (generate_equipment_types (fun _ => default) 50) 2000).bind fun calls =>
      (generate_appointments (fun _ => default) (fun _ => default)
        (generate_customers (fun _ => default) 500)
        (generate_technicians (fun _ => default) 15) calls 500).map List.length)
      = some 2000 ∧ (2000 : Nat) ≠ 500 := by
  constructor
  · have hcne : generate_customers (fun _ => default) 500 ≠ [] := by
      have hl : (generate_customers (fun _ => default) 500).length = 500 := by
        simp [generate_customers]
      intro hh
      rw [hh] at hl
      simp at hl
    have htne : generate_technicians (fun _ => default) 15 ≠ [] := by
      have hl : (generate_technicians (fun _ => default) 15).length = 15 := by
        simp [generate_technicians]
      intro hh
      rw [hh] at hl
      simp at hl
    have hene : generate_equipment_types (fun _ => default) 50 ≠ [] := by
      have hl : (generate_equipment_types (fun _ => default) 50).length = 50 := by
        simp [generate_equipment_types]
      intro hh
      rw [hh] at hl
      simp at hl
    obtain ⟨calls, h1, h2, _, _⟩ :=
      sc_build_spec (fun _ => default) (fun i => i + 1) 2000 hcne htne hene
    rw [generate_service_calls_def, h1]
    simp only [Option.some_bind]
    obtain ⟨apps, ha1, ha2⟩ := generate_appointments_spec (fun _ => default) (fun _ => default)
      (generate_customers (fun _ => default) 500)
      (generate_technicians (fun _ => default) 15) calls 500 hcne htne
    rw [ha1]
    simp only [Option.map_some', Option.some_inj]
    rw [ha2, h2]
  · decide

/-- Claim C2, amended: the independent generators produce exactly the
requested row counts, service calls produce exactly the requested count,
incident response is clamped to `min(requested, emergency pool)`, but the
appointments generator produces `max(requested, number of service calls)`
rows — one Completed row per service call plus the truncated remainder —
so the full run yields 2000 appointments, not the requested 500. -/
theorem generator_row_counts
    (ρc : Nat → CustomerRand) (ρt : Nat → TechnicianRand) (ρe : Nat → EquipmentRand)
    (ρp : Nat → PartRand) (ρs : Nat → ServiceCallRand) (ρi : Nat → IncidentRand)
    (ρ1 : Nat → ApptCallRand) (ρ2 : Nat → ApptFutureRand)
    (nc nt ne np nsc ninc napp : Nat)
    (hc : 0 < nc) (ht : 0 < nt) (he : 0 < ne) :
    (generate_customers ρc nc).length = nc ∧
    (generate_technicians ρt nt).length = nt ∧
    (generate_equipment_types ρe ne).length = ne ∧
    (generate_parts ρp np).length = np ∧
    ∃ calls, generate_service_calls ρs (generate_customers ρc nc)
        (generate_technicians ρt nt) (generate_equipment_types ρe ne) nsc = some calls ∧
      calls.length = nsc ∧
      (∃ incs, generate_incident_response ρi calls (generate_technicians ρt nt) ninc
          = some incs ∧
        incs.length
          = min ninc ((calls.filter fun c => c.service_type == "Emergency").length)) ∧
      (∃ apps, generate_appointments ρ1 ρ2 (generate_customers ρc nc)
          (generate_technicians ρt nt) calls napp = some apps ∧
        apps.length = max napp calls.length) := by
  have hcne : generate_customers ρc nc ≠ [] := by
    have hl : (generate_customers ρc nc).length = nc := by simp [generate_customers]
    intro hh
    rw [hh] at hl
    simp at hl
    omega
  have htne : generate_technicians ρt nt ≠ [] := by
    have hl : (generate_technicians ρt nt).length = nt := by simp [generate_technicians]
    intro hh
    rw [hh] at hl
    simp at hl
    omega
  have hene : generate_equipment_types ρe ne ≠ [] := by
    have hl : (generate_equipment_types ρe ne).length = ne := by
      simp [generate_equipment_types]
    intro hh
    rw [hh] at hl
    simp at hl
    omega
  refine ⟨by simp [generate_customers], by simp [generate_technicians],
    by simp [generate_equipment_types], by simp [generate_parts], ?_⟩
  obtain ⟨calls, h1, h2, _, _⟩ := sc_build_spec ρs (fun i => i + 1) nsc hcne htne hene
  refine ⟨calls, by rw [generate_service_calls_def]; exact h1, h2, ?_, ?_⟩
  · obtain ⟨incs, hi1, hi2, _⟩ :=
      generate_incident_response_spec ρi calls (generate_technicians ρt nt) ninc htne
    exact ⟨incs, hi1, hi2⟩
  · obtain ⟨apps, ha1, ha2⟩ := generate_appointments_spec ρ1 ρ2 (generate_customers ρc nc)
      (generate_technicians ρt nt) calls napp hcne htne
    refine ⟨apps, ha1, ?_⟩
    rw [ha2]
    omega

/-- Witness for the amended C2 at the full-run configuration. -/
theorem generator_row_counts_witness :
    (generate_customers (fun _ => default) 500).length = 500 ∧
    (generate_technicians (fun _ => default) 15).length = 15 ∧
    (generate_equipment_types (fun _ => default) 50).length = 50 ∧
    (generate_parts (fun _ => default) 200).length = 200 ∧
    ∃ calls, generate_service_calls (fun _ => default)
        (generate_customers (fun _ => default) 500)
        (generate_technicians (fun _ => default) 15)
        (generate_equipment_types (fun _ => default) 50) 2000 = some calls ∧
      calls.length = 2000 ∧
      (∃ incs, generate_incident_response (fun _ => default) calls
          (generate_technicians (fun _ => default) 15) 150 = some incs ∧
        incs.length
          = min 150 ((calls.filter fun c => c.service_type == "Emergency").length)) ∧
      (∃ apps, generate_appointments (fun _ => default) (fun _ => default)
          (generate_customers (fun _ => default) 500)
          (generate_technicians (fun _ => default) 15) calls 500 = some apps ∧
        apps.length = max 500 calls.length) :=
  generator_row_counts (fun _ => default) (fun _ => default) (fun _ => default)
    (fun _ => default) (fun _ => default) (fun _ => default) (fun _ => default)
    (fun _ => default) 500 15 50 200 2000 150 500
    (by decide) (by decide) (by decide)

/-- Claim C3, counterexample: with one service call, an empty parts
frame and an inner-count draw of 1, `generate_parts_usage` fails (the
source hits `random.choice` on an empty id list, an `IndexError`) instead
of producing zero rows. -/
theorem parts_usage_empty_parts_table_fails :
    generate_parts_usage (fun _ => puRandOne) [sampleEmergencyCall] [] = none := rfl

/-- Claim C3, amended: a generator whose *iterated* dependency table is
empty produces zero rows without failing (parts usage over no service
calls, payments over no invoices, incident response over no service
calls), and an out-of-range incident count is clamped rather than an
error; but a generator that *samples* an empty parent table (parts usage
with service calls present and no parts) can fail, per the
counterexample. -/
theorem empty_dependency_tables_yield_no_rows
    (ρu : Nat → PartsUsageRand) (ρp : Nat → PaymentRand) (ρi : Nat → IncidentRand)
    (parts : List PartRow) (calls : List ServiceCall) (techs : List Technician) (n : Nat)
    (ht : techs ≠ []) :
    generate_parts_usage ρu [] parts = some [] ∧
    generate_payments ρp [] = [] ∧
    generate_incident_response ρi [] techs n = some [] ∧
    (∃ rows, generate_incident_response ρi calls techs n = some rows ∧
      rows.length = min n ((calls.filter fun c => c.service_type == "Emergency").length)) := by
  refine ⟨rfl, rfl, ?_, ?_⟩
  · simp [generate_incident_response, optMap]
  · obtain ⟨rows, h1, h2, _⟩ := generate_incident_response_spec ρi calls techs n ht
    exact ⟨rows, h1, h2⟩

/-- Witness for the amended C3 at concrete frames. -/
theorem empty_dependency_tables_yield_no_rows_witness :
    generate_parts_usage (fun _ => default) [] [samplePart] = some [] ∧
    generate_payments (fun _ => default) [] = [] ∧
    generate_incident_response (fun _ => default) [] [sampleTechnician] 150 = some [] ∧
    (∃ rows, generate_incident_response (fun _ => default) [sampleEmergencyCall]
        [sampleTechnician] 150 = some rows ∧
      rows.length = min 150
        (([sampleEmergencyCall].filter fun c => c.service_type == "Emergency").length)) :=
  empty_dependency_tables_yield_no_rows (fun _ => default) (fun _ => default)
    (fun _ => default) [samplePart] [sampleEmergencyCall] [sampleTechnician] 150
    (List.cons_ne_nil _ _)

/-- Claim C4: for each input invoice with a unique id, a Paid invoice
receives exactly one payment of the full invoice total; a Pending invoice
receives zero or one payment whose amount is a 30 percent to 80 percent
fraction of the total, rounded to currency — strictly below the total for
any realistic (more than one-fortieth of a unit) invoice total; invoices
with any other status receive no payment. -/
theorem payments_per_invoice_status
    (ρ : Nat → PaymentRand) (invoices : List Invoice)
    (hnd : (invoices.map Invoice.invoice_id).Nodup)
    (hfrac : ∀ i, (3 : ℚ)/10 ≤ (ρ i).payFrac ∧ (ρ i).payFrac ≤ 4/5) :
    ∀ inv ∈ invoices,
      ((inv.status = "Paid" →
          ∃ p, (generate_payments ρ invoices).filter
              (fun q => q.invoice_id == inv.invoice_id) = [p] ∧
            p.amount = inv.total_amount) ∧
       (inv.status = "Pending" →
          ((generate_payments ρ invoices).filter
              (fun q => q.invoice_id == inv.invoice_id) = [] ∨
           ∃ p, (generate_payments ρ invoices).filter
               (fun q => q.invoice_id == inv.invoice_id) = [p] ∧
             (∃ f, (3 : ℚ)/10 ≤ f ∧ f ≤ 4/5 ∧ p.amount = round2 (inv.total_amount * f)) ∧
             (1/40 < inv.total_amount → p.amount < inv.total_amount))) ∧
       (inv.status ≠ "Paid" → inv.status ≠ "Pending" →
          (generate_payments ρ invoices).filter
              (fun q => q.invoice_id == inv.invoice_id) = [])) := by
  intro inv hinv
  have hinj := List.inj_on_of_nodup_map hnd
  have hnd_pay : ((invoices.filter fun q => q.status == "Paid" || q.status == "Pending").map
      Invoice.invoice_id).Nodup :=
    List.Nodup.sublist (List.Sublist.map _ (List.filter_sublist invoices)) hnd
  refine ⟨?_, ?_, ?_⟩
  · intro hpaid
    have hmem : inv ∈ invoices.filter (fun q => q.status == "Paid" || q.status == "Pending") :=
      List.mem_filter.mpr ⟨hinv, by simp [hpaid]⟩
    obtain ⟨k, pid2, hflt⟩ := (payments_loop_spec ρ hmem hnd_pay).1 hpaid
    rw [generate_payments_def]
    exact ⟨_, hflt, rfl⟩
  · intro hpend
    have hmem : inv ∈ invoices.filter (fun q => q.status == "Paid" || q.status == "Pending") :=
      List.mem_filter.mpr ⟨hinv, by simp [hpend]⟩
    rcases (payments_loop_spec ρ hmem hnd_pay).2 hpend with h | ⟨k, pid2, h⟩
    · left
      rw [generate_payments_def]
      exact h
    · right
      rw [generate_payments_def]
      refine ⟨_, h, ⟨(ρ k).payFrac, (hfrac k).1, (hfrac k).2, rfl⟩, ?_⟩
      intro hT
      have hf := hfrac k
      have hT0 : (0 : ℚ) < inv.total_amount := lt_trans (by norm_num) hT
      have h1 : (part_payment (ρ k) pid2 inv).amount
          = round2 (inv.total_amount * (ρ k).payFrac) := rfl
      have h2 : round2 (inv.total_amount * (ρ k).payFrac)
          ≤ inv.total_amount * (ρ k).payFrac + 1/200 := round2_le _
      have h3 : inv.total_amount * (ρ k).payFrac ≤ inv.total_amount * (4/5) :=
        mul_le_mul_of_nonneg_left hf.2 (le_of_lt hT0)
    
      rw [h1]
      linarith
  · intro hnp hnpend
    rw [generate_payments_def]
    apply payments_loop_filter_eq_nil
    intro q hq hqe
    obtain ⟨hq_mem, hq_pred⟩ := List.mem_filter.mp hq
    have hq_eq : q = inv := hinj hq_mem hinv hqe
    subst hq_eq
    rcases (by simpa using hq_pred : q.status = "Paid" ∨ q.status = "Pending") with h | h
    · exact hnp h
    · exact hnpend h

/-- Witness for C4 at one Paid and one Pending invoice. -/
theorem payments_per_invoice_status_witness :
    ((samplePaidInvoice.status = "Paid" →
        ∃ p, (generate_payments (fun _ => samplePaymentRand)
            [samplePaidInvoice, samplePendingInvoice]).filter
            (fun q => q.invoice_id == samplePaidInvoice.invoice_id) = [p] ∧
          p.amount = samplePaidInvoice.total_amount) ∧
     (samplePaidInvoice.status = "Pending" →
        ((generate_payments (fun _ => samplePaymentRand)
            [samplePaidInvoice, samplePendingInvoice]).filter
            (fun q => q.invoice_id == samplePaidInvoice.invoice_id) = [] ∨
         ∃ p, (generate_payments (fun _ => samplePaymentRand)
             [samplePaidInvoice, samplePendingInvoice]).filter
             (fun q => q.invoice_id == samplePaidInvoice.invoice_id) = [p] ∧
           (∃ f, (3 : ℚ)/10 ≤ f ∧ f ≤ 4/5 ∧
             p.amount = round2 (samplePaidInvoice.total_amount * f)) ∧
           (1/40 < samplePaidInvoice.total_amount →
             p.amount < samplePaidInvoice.total_amount))) ∧
     (samplePaidInvoice.status ≠ "Paid" → samplePaidInvoice.status ≠ "Pending" →
        (generate_payments (fun _ => samplePaymentRand)
            [samplePaidInvoice, samplePendingInvoice]).filter
            (fun q => q.invoice_id == samplePaidInvoice.invoice_id) = [])) ∧
    ((samplePendingInvoice.status = "Paid" →
        ∃ p, (generate_payments (fun _ => samplePaymentRand)
            [samplePaidInvoice, samplePendingInvoice]).filter
            (fun q => q.invoice_id == samplePendingInvoice.invoice_id) = [p] ∧
          p.amount = samplePendingInvoice.total_amount) ∧
     (samplePendingInvoice.status = "Pending" →
        ((generate_payments (fun _ => samplePaymentRand)
            [samplePaidInvoice, samplePendingInvoice]).filter
            (fun q => q.invoice_id == samplePendingInvoice.invoice_id) = [] ∨
         ∃ p, (generate_payments (fun _ => samplePaymentRand)
             [samplePaidInvoice, samplePendingInvoice]).filter
             (fun q => q.invoice_id == samplePendingInvoice.invoice_id) = [p] ∧
           (∃ f, (3 : ℚ)/10 ≤ f ∧ f ≤ 4/5 ∧
             p.amount = round2 (samplePendingInvoice.total_amount * f)) ∧
           (1/40 < samplePendingInvoice.total_amount →
             p.amount < samplePendingInvoice.total_amount))) ∧
     (samplePendingInvoice.status ≠ "Paid" → samplePendingInvoice.status ≠ "Pending" →
        (generate_payments (fun _ => samplePaymentRand)
            [samplePaidInvoice, samplePendingInvoice]).filter
            (fun q => q.invoice_id == samplePendingInvoice.invoice_id) = [])) :=
  ⟨payments_per_invoice_status (fun _ => samplePaymentRand)
      [samplePaidInvoice, samplePendingInvoice] (by decide)
      (fun i => show (3 : ℚ)/10 ≤ 1/2 ∧ (1/2 : ℚ) ≤ 4/5 from ⟨by norm_num, by norm_num⟩)
      samplePaidInvoice (List.mem_cons_self _ _),
   payments_per_invoice_status (fun _ => samplePaymentRand)
      [samplePaidInvoice, samplePendingInvoice] (by decide)
      (fun i => show (3 : ℚ)/10 ≤ 1/2 ∧ (1/2 : ℚ) ≤ 4/5 from ⟨by norm_num, by norm_num⟩)
      samplePendingInvoice (List.mem_cons_of_mem _ (List.mem_cons_self _ _))⟩

/-! ### Supporting facts: pipeline invoice totals clear the C4 threshold -/

/-- Rounding to 2 decimals moves a value down by at most half a cent. -/
theorem round2_ge (q : ℚ) : q - 1 / 200 ≤ round2 q := by
  have h : |q * 100 - round (q * 100)| ≤ 1 / 2 := abs_sub_round _
  have h2 := abs_le.mp h
  unfold round2
  linarith [h2.1, h2.2]

/-- Rounding to 1 decimal moves a value down by at most 1/20. -/
theorem round1_ge (q : ℚ) : q - 1 / 20 ≤ round1 q := by
  have h : |q * 10 - round (q * 10)| ≤ 1 / 2 := abs_sub_round _
  have h2 := abs_le.mp h
  unfold round1
  linarith [h2.1, h2.2]

/-- A sampled selection of at most the frame's length only contains frame
rows. -/
theorem sample_rows_mem [Inhabited α] {σ : Nat → Nat} {k : Nat} {l : List α}
    (hk : k ≤ l.length) : ∀ x ∈ sample_rows σ k l, x ∈ l := by
  intro x hx
  obtain ⟨i, hi, rfl⟩ := List.mem_map.mp hx
  rw [List.mem_range] at hi
  have hlen : 0 < l.length := by omega
  have hm : σ i % l.length < l.length := Nat.mod_lt _ hlen
  rw [List.getD_eq_getElem?_getD, List.getElem?_eq_getElem hm, Option.getD_some]
  exact List.getElem_mem hm

/-- Every drawable state tax rate of `generate_invoices` is nonnegative. -/
theorem tax_rate_pick_nonneg (idx : Nat) :
    0 ≤ pick [(65 : ℚ)/1000, 75/1000, 80/1000, 85/1000] 0 idx := by
  have h := pick_mem [(65 : ℚ)/1000, 75/1000, 80/1000, 85/1000] 0 idx (by simp)
  have h2 : pick [(65 : ℚ)/1000, 75/1000, 80/1000, 85/1000] 0 idx = 65/1000 ∨
      pick [(65 : ℚ)/1000, 75/1000, 80/1000, 85/1000] 0 idx = 75/1000 ∨
      pick [(65 : ℚ)/1000, 75/1000, 80/1000, 85/1000] 0 idx = 80/1000 ∨
      pick [(65 : ℚ)/1000, 75/1000, 80/1000, 85/1000] 0 idx = 85/1000 := by
    simpa using h
  rcases h2 with h2 | h2 | h2 | h2 <;> rw [h2] <;> norm_num

/-- When invoices are generated from service calls that the service-call
generator produced, and the randomness draws respect their documented
ranges (`uniform(1, 8)` duration, `randint(50, 100)` labor rate,
`uniform(0, 300)` parts cost, `uniform(1.1, 1.3)` markup), every invoice
total strictly exceeds 1 — far above the 1/40 threshold under which the
C4 partial payment could round up to the full total. -/
theorem pipeline_invoice_totals_exceed_one
    (ρsc : Nat → ServiceCallRand) (ρin : Nat → InvoiceRand) (σ : Nat → Nat)
    (cs : List Customer) (ts : List Technician) (es : List EquipmentType)
    (n : Nat) (customers : List Customer) (nopt : Option Nat)
    (hdur : ∀ i, 1 ≤ (ρsc i).durU)
    (hrate : ∀ i, 50 ≤ (ρsc i).rate)
    (hparts : ∀ i, 0 ≤ (ρsc i).partsU)
    (hmark : ∀ i, (11 : ℚ)/10 ≤ (ρin i).markup) :
    ∀ calls, generate_service_calls ρsc cs ts es n = some calls →
      ∀ inv ∈ generate_invoices ρin σ calls customers nopt, 1 < inv.total_amount := by
  intro calls hcalls inv hinv
  have hcall_total : ∀ call ∈ calls, (47 : ℚ) ≤ call.total_cost := by
    intro call hcall
    rw [generate_service_calls_def] at hcalls
    rw [Option.map_eq_some'] at hcalls
    obtain ⟨bs, hbs, rfl⟩ := hcalls
    obtain ⟨r0, hr0, rfl⟩ := List.mem_map.mp hcall
    obtain ⟨i, _, hi⟩ := optMap_mem hbs r0 hr0
    obtain ⟨_, _, _, _, hlab, hpar, _⟩ := service_call_row_spec hi
    have hd1 : (19 : ℚ)/20 ≤ round1 (ρsc i).durU := by
      have := round1_ge (ρsc i).durU
      have := hdur i
      linarith
    have hr1 : (50 : ℚ) ≤ ((ρsc i).rate : ℚ) := by
      exact_mod_cast hrate i
    have hmul : (19 : ℚ)/20 * 50 ≤ round1 (ρsc i).durU * ((ρsc i).rate : ℚ) :=
      mul_le_mul hd1 hr1 (by norm_num) (by linarith)
    have hlab_ge : (237 : ℚ)/5 ≤ r0.labor_cost := by
      rw [hlab]
      have := round2_ge (round1 (ρsc i).durU * ((ρsc i).rate : ℚ))
      linarith
    have hpar_ge : -(1 : ℚ)/200 ≤ r0.parts_cost := by
      rw [hpar]
      have := round2_ge (ρsc i).partsU
      have := hparts i
      linarith
    show (47 : ℚ) ≤ r0.labor_cost + r0.parts_cost
    linarith
  simp only [generate_invoices] at hinv
  obtain ⟨ic, hic, rfl⟩ := List.mem_map.mp hinv
  have hcall_mem : ic.2 ∈ calls := by
    have h1 := enum_snd_mem (k := ic.1) (a := ic.2) (by simpa using hic)
    exact sample_rows_mem (min_le_right _ _) _ h1
  have htot := hcall_total ic.2 hcall_mem
  have hm := hmark ic.1
  have hsub_ge : (51 : ℚ) ≤ round2 (ic.2.total_cost * (ρin ic.1).markup) := by
    have hmul : (47 : ℚ) * (11/10) ≤ ic.2.total_cost * (ρin ic.1).markup :=
      mul_le_mul htot hm (by norm_num) (by linarith)
    have := round2_ge (ic.2.total_cost * (ρin ic.1).markup)
    linarith
  have htax_ge : -(1 : ℚ)/200 ≤ round2 (round2 (ic.2.total_cost * (ρin ic.1).markup)
      * pick [(65 : ℚ)/1000, 75/1000, 80/1000, 85/1000] 0 (ρin ic.1).rateIdx) := by
    have hnn : 0 ≤ round2 (ic.2.total_cost * (ρin ic.1).markup)
        * pick [(65 : ℚ)/1000, 75/1000, 80/1000, 85/1000] 0 (ρin ic.1).rateIdx :=
      mul_nonneg (by linarith) (tax_rate_pick_nonneg _)
    have := round2_ge (round2 (ic.2.total_cost * (ρin ic.1).markup)
      * pick [(65 : ℚ)/1000, 75/1000, 80/1000, 85/1000] 0 (ρin ic.1).rateIdx)
    linarith
  show (1 : ℚ) < round2 (ic.2.total_cost * (ρin ic.1).markup)
    + round2 (round2 (ic.2.total_cost * (ρin ic.1).markup)
      * pick [(65 : ℚ)/1000, 75/1000, 80/1000, 85/1000] 0 (ρin ic.1).rateIdx)
  linarith

/-- Witness for C8 at the concretely generated sample invoice. -/
theorem invoice_totals_consistent_witness :
    sampleGeneratedInvoice.total_amount
      = sampleGeneratedInvoice.subtotal + sampleGeneratedInvoice.tax_amount ∧
    sampleGeneratedInvoice.tax_amount
      = round2 (sampleGeneratedInvoice.subtotal * sampleGeneratedInvoice.tax_rate) :=
  invoice_totals_consistent (fun _ => default) (fun _ => 0)
    [sampleEmergencyCall, sampleEmergencyCall] [] none sampleGeneratedInvoice (by
      have h : generate_invoices (fun _ => default) (fun _ => 0)
          [sampleEmergencyCall, sampleEmergencyCall] [] none = [sampleGeneratedInvoice] := by
        norm_num [generate_invoices, sample_rows, sampleGeneratedInvoice, pick, round2,
          List.enum, List.enumFrom, sampleEmergencyCall]
      rw [h]
      exact List.mem_cons_self _ _)
